import Mathlib

/-!
Verification development for an ACBL Score game-file parser
(`acbl-score-file-reader.py` together with the record classes of
`acblscoresupportclasses.py`).

Modelling conventions, all taken from the Python source:

* A byte buffer (`bytes` in the source) is a size together with a
  byte-valued function; `Buf.byte` reduces values modulo 256 since a
  Python `bytes` object only holds bytes.
* `struct.unpack_from` raises `struct.error` when the requested field
  does not fit in the buffer; that surfaces as `PErr.structError`.
* Every `raise ValueError(...)` site of the source has its own `PErr`
  constructor (they are all the same Python class, distinguished by
  message; the constructor records the raise site and its payload).
* Interpreter-level failures the source can actually hit are modelled
  by the corresponding exception kind: `nameError` (class used but
  never imported), `attributeError` (method that does not exist),
  `typeError` (`str + bytes` concatenation, call with a missing
  positional argument), `indexError` (indexing an empty `bytes`
  slice), `unicodeDecodeError` (`bytes.decode()` on invalid UTF-8).
* The fixed-point divisions (`/10`, `/100`, `/10000`) and the real48
  arithmetic are exact over the values the source produces (mantissas
  fit in 39 bits, scales are powers of two for real48), so numeric
  results are carried in `ℚ`.
* `int.from_bytes(...)` with no byteorder argument (line 905 of the
  reader) defaults to big-endian on the Python versions that accept
  it; `fromBytesBE` mirrors that.
-/

set_option maxRecDepth 8192
set_option maxHeartbeats 2000000
set_option linter.unreachableTactic false
set_option linter.unnecessarySeqFocus false
set_option linter.unusedTactic false
set_option linter.style.multiGoal false
set_option linter.unusedVariables false

inductive PErr : Type where
  | fileTooSmall
  | tableLengthIncorrect (got : Int)
  | fileLengthMismatch (got : Nat) (actual : Nat)
  | sectionDetailsLength
  | invalidDirection (got : Nat)
  | numPlayersNot2 (got : Nat)
  | invalidBoardResults (got : Nat)
  | valueError (msg : String)
  | structError
  | indexError
  | typeError
  | nameError (n : String)
  | attributeError (n : String)
  | unicodeDecodeError
  deriving DecidableEq

structure Buf : Type where
  size : Nat
  get : Nat → Nat

def Buf.byte (b : Buf) (i : Nat) : Nat := b.get i % 256

/-- Little-endian 16-bit read of bytes `i` and `i+1`. -/
def leU16 (b : Buf) (i : Nat) : Nat := b.byte i + 256 * b.byte (i + 1)

/-- Little-endian 32-bit read of bytes `i .. i+3`. -/
def leU32 (b : Buf) (i : Nat) : Nat :=
  b.byte i + 256 * b.byte (i + 1) + 65536 * b.byte (i + 2) + 16777216 * b.byte (i + 3)

/-- Two's-complement reinterpretation of an 8-bit value (`struct` format `b`). -/
def sgn8 (v : Nat) : Int := if v < 128 then (v : Int) else (v : Int) - 256

/-- Two's-complement reinterpretation of a 16-bit value (`struct` format `h`). -/
def sgn16 (v : Nat) : Int := if v < 32768 then (v : Int) else (v : Int) - 65536

/-- Two's-complement reinterpretation of a 32-bit value (`struct` format `l`). -/
def sgn32 (v : Nat) : Int := if v < 2147483648 then (v : Int) else (v : Int) - 4294967296

/-- Bytes `start, start+1, ..., start+n-1` of the buffer as a list. -/
def bytesAt (b : Buf) (start : Nat) : Nat → List Nat
  | 0 => []
  | n + 1 => b.byte start :: bytesAt b (start + 1) n

/-- Python slice `data[lo:hi]`: clipped to the buffer size, empty when `lo ≥ hi`. -/
def pySlice (b : Buf) (lo hi : Nat) : List Nat :=
  bytesAt b lo (min hi b.size - lo)

/-- Big-endian integer of a byte string, the `int.from_bytes` default. -/
def fromBytesBE (l : List Nat) : Nat := l.foldl (fun a c => a * 256 + c) 0

/-- Reader method `decode_uint8` (`struct.unpack_from('<B', data, loc)`). -/
def decode_uint8 (b : Buf) (loc : Nat) : Except PErr (Nat × Nat) :=
  if loc + 1 ≤ b.size then .ok (b.byte loc, loc + 1) else .error .structError

/-- Reader method `decode_int8` (`struct` format `<b`). -/
def decode_int8 (b : Buf) (loc : Nat) : Except PErr (Int × Nat) :=
  if loc + 1 ≤ b.size then .ok (sgn8 (b.byte loc), loc + 1) else .error .structError

/-- Reader method `decode_uint16` (`struct` format `<H`). -/
def decode_uint16 (b : Buf) (loc : Nat) : Except PErr (Nat × Nat) :=
  if loc + 2 ≤ b.size then .ok (leU16 b loc, loc + 2) else .error .structError

/-- Reader method `decode_int16` (`struct` format `<h`). -/
def decode_int16 (b : Buf) (loc : Nat) : Except PErr (Int × Nat) :=
  if loc + 2 ≤ b.size then .ok (sgn16 (leU16 b loc), loc + 2) else .error .structError

/-- Reader method `decode_uint32` (`struct` format `<L`). -/
def decode_uint32 (b : Buf) (loc : Nat) : Except PErr (Nat × Nat) :=
  if loc + 4 ≤ b.size then .ok (leU32 b loc, loc + 4) else .error .structError

/-- Reader method `decode_pointer`: identical to `decode_uint32` in the source. -/
def decode_pointer (b : Buf) (loc : Nat) : Except PErr (Nat × Nat) :=
  if loc + 4 ≤ b.size then .ok (leU32 b loc, loc + 4) else .error .structError

/-- Reader method `decode_boolean` (`not (val == 0)` on one byte). -/
def decode_boolean (b : Buf) (loc : Nat) : Except PErr (Bool × Nat) :=
  if loc + 1 ≤ b.size then .ok (b.byte loc ≠ 0, loc + 1) else .error .structError

/-- Reader method `decode_char` (`struct` format `<c`, one byte). -/
def decode_char (b : Buf) (loc : Nat) : Except PErr (Nat × Nat) :=
  if loc + 1 ≤ b.size then .ok (b.byte loc, loc + 1) else .error .structError

/-- Reader method `decode_string`: a length byte at `loc`, then that many
content bytes from `loc+1`; the cursor always advances by `max_len + 1`.
Each `unpack_from` checks its own bounds, so a length byte past the end or
content past the end is a `struct.error`. -/
def decode_string (b : Buf) (loc max_len : Nat) : Except PErr (List Nat × Nat) :=
  if loc + 1 ≤ b.size then
    let length := b.byte loc
    if loc + 1 + length ≤ b.size then
      .ok (bytesAt b (loc + 1) length, loc + max_len + 1)
    else .error .structError
  else .error .structError

/-- Reader method `decode_intfloat1` (signed 16-bit over 10). -/
def decode_intfloat1 (b : Buf) (loc : Nat) : Except PErr (ℚ × Nat) :=
  if loc + 2 ≤ b.size then .ok ((sgn16 (leU16 b loc) : ℚ) / 10, loc + 2)
  else .error .structError

/-- Reader method `decode_intfloat2` (signed 16-bit over 100). -/
def decode_intfloat2 (b : Buf) (loc : Nat) : Except PErr (ℚ × Nat) :=
  if loc + 2 ≤ b.size then .ok ((sgn16 (leU16 b loc) : ℚ) / 100, loc + 2)
  else .error .structError

/-- Reader method `decode_intfloat2long` (signed 32-bit over 100). -/
def decode_intfloat2long (b : Buf) (loc : Nat) : Except PErr (ℚ × Nat) :=
  if loc + 4 ≤ b.size then .ok ((sgn32 (leU32 b loc) : ℚ) / 100, loc + 4)
  else .error .structError

/-- Reader method `decode_intfloat4` (signed 16-bit over 10000). -/
def decode_intfloat4 (b : Buf) (loc : Nat) : Except PErr (ℚ × Nat) :=
  if loc + 2 ≤ b.size then .ok ((sgn16 (leU16 b loc) : ℚ) / 10000, loc + 2)
  else .error .structError

structure DateTime : Type where
  year : Nat
  month : Nat
  day : Nat
  hour : Nat
  minute : Nat
  second : Nat
  deriving DecidableEq

/-- Does February have 29 days in this year (Gregorian rule, as in
Python's `datetime`). -/
def isLeapYear (y : Nat) : Bool := y % 4 = 0 && (y % 100 ≠ 0 || y % 400 = 0)

/-- Length of a month as validated by Python's `datetime` constructor. -/
def daysInMonth (y m : Nat) : Nat :=
  if m = 2 then (if isLeapYear y then 29 else 28)
  else if m = 4 ∨ m = 6 ∨ m = 9 ∨ m = 11 then 30
  else 31

/-- Python's `datetime(year, month, day, hour, minute, second)` constructor:
field range validation in CPython's order, raising `ValueError` (messages
abbreviated to their fixed prefix). -/
def mkDatetime (year month day hour minute second : Nat) : Except PErr DateTime :=
  if year < 1 ∨ 9999 < year then .error (.valueError "year is out of range")
  else if month < 1 ∨ 12 < month then .error (.valueError "month must be in 1..12")
  else if day < 1 ∨ daysInMonth year month < day then
    .error (.valueError "day is out of range for month")
  else if 23 < hour then .error (.valueError "hour must be in 0..23")
  else if 59 < minute then .error (.valueError "minute must be in 0..59")
  else if 59 < second then .error (.valueError "second must be in 0..59")
  else .ok ⟨year, month, day, hour, minute, second⟩

/-- Reader method `decode_date`: one little-endian 32-bit word, split by the
source's exact bit operations, then fed to the `datetime` constructor. -/
def decode_date (b : Buf) (loc : Nat) : Except PErr (DateTime × Nat) := do
  let (dt, _) ← decode_uint32 b loc
  let date := dt >>> 16
  let year := (date >>> 9) + 1980
  let month := (date >>> 5) &&& 0x0F
  let day := date &&& 0x1F
  let time := dt &&& 0xFFFF
  let hour := time >>> 11
  let minute := (time >>> 5) &&& 0x3F
  let sec := (time <<< 1) &&& 0x3F
  let res ← mkDatetime year month day hour minute sec
  pure (res, loc + 4)

/-- Python `2 ** z` for an integer `z`: an exact power of two (an `int`
for nonnegative `z`, an exactly representable `float` for the negative
exponents real48 decoding produces). -/
def pow2Z (z : Int) : ℚ :=
  if 0 ≤ z then ((2 ^ z.toNat : Nat) : ℚ) else 1 / ((2 ^ (-z).toNat : Nat) : ℚ)

/-- Reader method `decode_real48`. `self.file_data[loc:loc+6]` is a Python
slice, so it silently clips at the end of the buffer; indexing the clipped
slice (`bytes_data[0]`, `mantissa_bytes[0]`) raises `IndexError` when it is
too short, and `int.from_bytes` of however many mantissa bytes remain is a
big-endian integer of the clipped byte string. -/
def decode_real48 (b : Buf) (loc : Nat) : Except PErr (ℚ × Nat) :=
  match pySlice b loc (loc + 6) with
  | [] => .error .indexError
  | exponent :: mantissa_bytes =>
    match mantissa_bytes with
    | [] => .error .indexError
    | m0 :: mrest =>
      let sign_bit := (m0 &&& 0x80) >>> 7
      let mantissa_int := fromBytesBE ((m0 &&& 0x7F) :: mrest)
      let mantissa : ℚ := (mantissa_int : ℚ) / (2 ^ 39 : ℚ)
      if exponent = 0 ∧ mantissa_int = 0 then .ok (0, loc + 6)
      else
        let result := mantissa * pow2Z ((exponent : Int) - 129)
        .ok (if sign_bit = 1 then -result else result, loc + 6)

/-- Is a byte a UTF-8 continuation byte. -/
def contByte (c : Nat) : Bool := 128 ≤ c && c ≤ 191

/-- Fueled UTF-8 validity check (RFC 3629, what `bytes.decode()` accepts in
strict mode); the fuel is always instantiated with the list length, which
bounds the number of decoded code points. -/
def utf8Go : Nat → List Nat → Bool
  | _, [] => true
  | 0, _ :: _ => false
  | f + 1, c :: rest =>
    if c ≤ 127 then utf8Go f rest
    else if 194 ≤ c && c ≤ 223 then
      match rest with
      | c1 :: r => contByte c1 && utf8Go f r
      | [] => false
    else if c = 224 then
      match rest with
      | c1 :: c2 :: r => (160 ≤ c1 && c1 ≤ 191) && contByte c2 && utf8Go f r
      | _ => false
    else if (225 ≤ c && c ≤ 236) || c = 238 || c = 239 then
      match rest with
      | c1 :: c2 :: r => contByte c1 && contByte c2 && utf8Go f r
      | _ => false
    else if c = 237 then
      match rest with
      | c1 :: c2 :: r => (128 ≤ c1 && c1 ≤ 159) && contByte c2 && utf8Go f r
      | _ => false
    else if c = 240 then
      match rest with
      | c1 :: c2 :: c3 :: r => (144 ≤ c1 && c1 ≤ 191) && contByte c2 && contByte c3 && utf8Go f r
      | _ => false
    else if 241 ≤ c && c ≤ 243 then
      match rest with
      | c1 :: c2 :: c3 :: r => contByte c1 && contByte c2 && contByte c3 && utf8Go f r
      | _ => false
    else if c = 244 then
      match rest with
      | c1 :: c2 :: c3 :: r => (128 ≤ c1 && c1 ≤ 143) && contByte c2 && contByte c3 && utf8Go f r
      | _ => false
    else false

/-- Python `bytes.decode()` (strict UTF-8). The decoded text is represented
by its byte sequence, which UTF-8 round-trips exactly. -/
def pyDecode (bs : List Nat) : Except PErr (List Nat) :=
  if utf8Go bs.length bs then .ok bs else .error .unicodeDecodeError

/-- Truthiness of an `Except` result, used by the statement layer. -/
def pIsOk {α : Type} : Except PErr α → Bool
  | .ok _ => true
  | .error _ => false

/-- Class `MPAward` of the support module: three (value, color, rank-type)
triples. -/
structure MPAward : Type where
  mp1 : ℚ
  mp1_color : Nat
  mp1_rank_type : Nat
  mp2 : ℚ
  mp2_color : Nat
  mp2_rank_type : Nat
  mp3 : ℚ
  mp3_color : Nat
  mp3_rank_type : Nat
  deriving DecidableEq

/-- Class `Ranking` of the support module (attribute names as assigned in
its constructor, typos included). -/
structure Ranking : Type where
  section_rank_with_mps : Nat
  sect_rank_tie : Nat
  overall_rank_with_mps : Nat
  overall_rank_with_tie : Nat
  qualification_flag : Nat
  overall_rank : Nat
  index_next_sect : Nat
  section_next_sect : Nat
  direction_next_ext : Nat
  index_next_overall : Nat
  section_next_oeverall : Nat
  direction_next_overall : Nat
  deriving DecidableEq

/-- Class `Player` of the support module. Its constructor calls
`bytes.decode()` on the name fields; the decoded strings are represented
by their (UTF-8-valid) byte sequences. -/
structure Player : Type where
  last_name : List Nat
  first_name : List Nat
  city : List Nat
  state : List Nat
  country : List Nat
  acbl_num : List Nat
  acbl_rank : Nat
  total_mps : Nat
  mps_from_prev_session : MPAward
  mps_from_current_session : MPAward
  mps_total : MPAward
  deriving DecidableEq

/-- Class `PairDetails` of the support module. Its constructor line
`self_final_score = final_score` binds a local variable instead of an
attribute, so the final score is received but never stored; the structure
therefore has no final-score field. The `cur_sessoin_mps` typo is kept. -/
structure PairDetails : Type where
  pair_id : Nat
  adjustment : ℚ
  unscaled_score : ℚ
  session_score : ℚ
  carry_over_score : ℚ
  handicap : ℚ
  partnership_percentage : ℚ
  partnership_strat : Nat
  partnership_avg_mps : Nat
  next_sect : List Nat
  next_direction : Nat
  next_table : Nat
  next_rotate : Nat
  num_boards_played : Nat
  eligibility_status : Nat
  prev_session_mps : MPAward
  cur_sessoin_mps : MPAward
  all_session_mps : MPAward
  strat1_rank : Ranking
  strat2_rank : Ranking
  strat3_rank : Ranking
  player1 : Player
  player2 : Player
  deriving DecidableEq

/-- Class `PairList` of the support module. -/
structure PairList : Type where
  direction : Nat
  num_pairs : Nat
  pairs : List PairDetails
  deriving DecidableEq

/-- Class `SectionStrat` of the support module: `init_values` fills a
dictionary with these twelve keys. -/
structure SectionStrat : Type where
  ns_rank_depth : Int
  ew_rank_depth : Int
  s_rank_depth : Int
  w_rank_depth : Int
  num_ns_pairs : Nat
  num_ew_pairs : Nat
  num_s_players : Nat
  num_w_players : Nat
  ns_qualification_depth : Int
  ew_qualification_depth : Int
  s_qualification_depth : Int
  w_qualification_depth : Int
  deriving DecidableEq

/-- Dictionary built by `parse_mp_pigmentation_structure` (its nine keys). -/
structure MPPigmentation : Type where
  mp_percent_to_first_pig : ℚ
  mp_percent_to_second_pig : ℚ
  mp_percent_to_third_pig : ℚ
  mp_of_first_pig_to_top : ℚ
  mp_of_second_pig_to_top : ℚ
  mp_of_third_pig_to_top : ℚ
  first_pigmentation_type : Nat
  second_pigmentation_type : Nat
  third_pigmentation_type : Nat
  deriving DecidableEq

/-- Class `StratStructure` of the support module. -/
structure StratStructure : Type where
  mps_for_first : ℚ
  ribbon_qualifying_color : Nat
  ribbon_qualifying_depth : Nat
  mp_factor : ℚ
  rank_depth : Nat
  number_tables_assumed : Nat
  rank_to_omit : Nat
  strat_min_mps : Nat
  strat_mp_cutoff : Nat
  strat_letter : Nat
  percent_of_open_game_rating : Nat
  event_m_factor : ℚ
  session_m_factor : ℚ
  overall_award : MPPigmentation
  session_award : MPPigmentation
  section_award : MPPigmentation
  deriving DecidableEq

/-- Class `MitchellPair` of the support module: reassignment quadruples and
initial-table quadruples accumulated by its `add_reassignment` and
`add_initial` methods. -/
structure MitchellPair : Type where
  reassigned_pairs : List (List Nat)
  initial_table : List (List Nat)
  deriving DecidableEq

/-- Class `BoardEntry` of the support module. -/
structure BoardEntry : Type where
  round_num : Nat
  table_num : Nat
  ns_pair : Nat
  ns_score : Nat
  ns_mp_score : ℚ
  ew_pair : Nat
  ew_score : Nat
  ew_mp_score : ℚ
  deriving DecidableEq

/-- Class `BoardResults` of the support module. The constructor sets the
first four fields; `travellers`, `board_num` and `num_results` are only
set afterwards through the `set_travellers` / `set_board_num` /
`set_num_results` methods, hence `Option` (`none` = attribute not set).
`set_board_num` also prints a non-fatal warning on an id mismatch, which
has no effect on the stored data. -/
structure BoardResults : Type where
  board_id : Nat
  num_competitive_units : Nat
  num_valid_results : Nat
  entries : List BoardEntry
  travellers : Option Bool := none
  board_num : Option Nat := none
  num_results : Option Nat := none
  deriving DecidableEq

/-- Class `BoardList` of the support module. -/
structure BoardList : Type where
  section_num : Nat
  num_boards : Nat
  boards : List BoardResults
  deriving DecidableEq

/-- Value stored by `parse_section_details` into the `ns_pairs` /
`ew_pairs` / `south_ind` / `west_ind` slots: initialised to the empty
string, overwritten in the individual-play branch with the *unpacked-less*
result of `parse_player_struct` (the Python code stores the whole
`(player, next_offset)` tuple), and in the pair-play branch with a
`PairList`. -/
inductive EntryIndex : Type where
  | blank
  | pairs (p : PairList)
  | plyrLoc (p : Player) (l : Nat)
  deriving DecidableEq

/-- Fields set by `SectionDetails.init_values`. The source line
`self.strat3 = strat3,` stores a 1-tuple around the third strat; the
tuple wrapper carries no data and is elided here. `team_match` holds the
result of `parse_team_match_index`, whose only reachable non-error value
is the empty string (for a null pointer), kept as `List Nat`. -/
structure SDFields : Type where
  section_number : Nat
  ns_pairs : EntryIndex
  ew_pairs : EntryIndex
  south_ind : EntryIndex
  west_ind : EntryIndex
  howell_flag : Bool
  num_boards_in_play : Nat
  highest_pair_numbe : Nat
  num_boards_per_round : Nat
  top_on_board : Nat
  location_of_bye_stand : Nat
  rover_movement_mode : Nat
  starting_table_for_board_1 : Nat
  ew_skip_after_round : Nat
  names_entered_status : Nat
  carry_over_scores_flag : Bool
  max_number_boards_to_play : Nat
  board_factor : ℚ
  score_adjust_average : ℚ
  scores_factored_flag : Bool
  posting_method : Nat
  posted_flag : Bool
  num_rounds : Nat
  movement_name : List Nat
  phantom_pair_number : Int
  section_color_ind : Nat
  dbadd_count : Nat
  barometer_game_flag : Bool
  num_tables : Nat
  total_mp_score : Nat
  section_color_str : List Nat
  round_for_change_in_posting_method : Nat
  web_movement_flag : Bool
  max_times_board_played : Nat
  outside_adjustments_entered_flag : Bool
  sequence_used_in_posting : Nat
  table_for_rover_pair_start : Nat
  strat1 : SectionStrat
  strat2 : SectionStrat
  strat3 : SectionStrat
  match_award_mps : ℚ
  victory_point_scale : Nat
  section_modification_time : DateTime
  bam_movement_flag : Bool
  acbl_score_version : ℚ
  phantom_player_2 : Nat
  phantom_player_3 : Nat
  manual_scoring_flag : Bool
  pair_map : MitchellPair
  club_number : List Nat
  num_elibible_strat1_pairs : Nat
  num_elibible_strat2_pairs : Nat
  num_elibible_strat3_pairs : Nat
  memo : List Nat
  team_match : List Nat
  deriving DecidableEq

/-- Class `SectionDetails` of the support module: a bare `SectionDetails()`
(what a null pointer yields) versus one filled by `init_values`. -/
inductive SectionDetails : Type where
  | empty
  | filled (v : SDFields)
  deriving DecidableEq

/-- Class `SectionSummary` of the support module; `boards` is either the
empty string (null boards pointer) or a `BoardList`, modelled as `Option`. -/
structure SectionSummary : Type where
  section_number : Nat
  section_name : List Nat
  details : SectionDetails
  boards : Option BoardList
  total_mp_score : Nat
  scoring_status : Nat
  num_rounds_posted : Nat
  total_number_rounds : Nat
  flags : Nat
  deriving DecidableEq

/-- Class `EventDetails` of the support module: field names are the
attribute names its constructor assigns (`backet_number` typo kept). -/
structure EventDetails : Type where
  num : Int
  event_name : List Nat
  session_name : List Nat
  director : List Nat
  tournament_sanction : List Nat
  date : List Nat
  club_name : List Nat
  event_code : List Nat
  memo : List Nat
  mp_percentage_p_factor : ℚ
  percent_qualifying : ℚ
  mp_rating_t_factor : ℚ
  stratify_by_age : Bool
  rating : Nat
  end_of_event_flag : Nat
  handicap : Nat
  session_number : Nat
  starting_session_number : Nat
  carryover_calculated : Bool
  data_edited : Bool
  negative_handicap_flag : Bool
  mp_award_verified : Nat
  max_imp_swing : Nat
  club_session : Nat
  tie_break_spread : ℚ
  mps_for_perfect_game : Nat
  top_on_a_board : Nat
  number_strats : Nat
  total_number_sessions : Nat
  consolation_flag : Bool
  club_game_type : Nat
  number_newcomer_tables : Nat
  club_number : List Nat
  event_modification_time : DateTime
  number_brackets : Nat
  backet_number : Nat
  qualifying_event_code : List Nat
  handicap_dual_ranking_method : Nat
  imp_datum_calc_flag : Bool
  edxov_done : Bool
  continious_pairs_flag : Bool
  qualifying_event_flag : Bool
  strat1_structure : StratStructure
  strat2_structure : StratStructure
  strat3_structure : StratStructure
  percent_to_qualify : Nat
  lm_eligibility_strat_1 : Int
  lm_eligibility_strat_2 : Int
  lm_eligibility_strat_3 : Int
  level_for_nap_or_gnt : Nat
  split_site_flag : Bool
  additional_factor_for_multi_site_events : ℚ
  set_number_of_ACBL_hands : List Nat
  display_percentages_instead_of_mps : Bool
  senior_event : Bool
  event_restrictions : Nat
  side_game_flag : Bool
  version_of_mp_award : Nat
  print_unpaid_flag : Bool
  game_sanction_fee : ℚ
  table_sanction_fee : ℚ
  charity_sanction_fee : ℚ
  stratify_by_average_flag : Bool
  recaps_in_percent_flag : Bool
  non_acbl_flag : Bool
  deriving DecidableEq

/-- Class `MasterTable` of the support module. Its constructor's line
`self.bridgemate_import: bridgemate` is a bare annotation (no assignment)
and `global_options = global_options` rebinds a local name, so neither
attribute is ever set on the object; both are modelled as `Option` fields
that the constructor leaves at `none`. -/
structure MasterTable : Type where
  version : ℚ
  memo : List Nat
  note : List Nat
  min_version : ℚ
  creation_date : DateTime
  bridgemate_import : Option Nat
  global_options : Option Nat
  deriving DecidableEq

/-- The `MasterTable(...)` constructor call: the `bridgemate` and
`global_options` arguments are received but dropped (see the structure's
doc comment). -/
def MasterTable.init (score_version : ℚ) (memo note : List Nat)
    (min_score_version : ℚ) (create_date : DateTime)
    (_bridgemate _global_options : Nat) : MasterTable :=
  { version := score_version, memo := memo, note := note,
    min_version := min_score_version, creation_date := create_date,
    bridgemate_import := none, global_options := none }

/-- One element of the parser's `self.events` list: a dictionary that
`parse_master_table` first fills with only a `details` key ( `{}` for a
null event pointer), and whose `type` / `scoring` keys are only added by
the two later loops (`none` = key absent). -/
structure EventEntry : Type where
  details : Option EventDetails
  etype : Option Nat
  scoring : Option Nat
  deriving DecidableEq

/-- The mutable parser state that `parse_master_table` reads and writes:
`self.events`, `self.sections` and `self.header`. -/
structure State : Type where
  events : List EventEntry
  sections : List SectionSummary
  header : Option MasterTable
  deriving DecidableEq

/-- Parser state right after `__init__`. -/
def State.fresh : State := { events := [], sections := [], header := none }

/-- Reader method `parse_mp_pigmentation_structure`. -/
def parse_mp_pigmentation_structure (b : Buf) (cur_loc : Nat) :
    Except PErr (MPPigmentation × Nat) := do
  let (first_per, l) ← decode_intfloat2 b cur_loc
  let (second_per, l) ← decode_intfloat2 b l
  let (third_per, l) ← decode_intfloat2 b l
  let (first_top, l) ← decode_intfloat2 b l
  let (second_top, l) ← decode_intfloat2 b l
  let (third_top, l) ← decode_intfloat2 b l
  let (first_pig, l) ← decode_uint8 b l
  let (second_pig, l) ← decode_uint8 b l
  let (third_pig, l) ← decode_uint8 b l
  pure (⟨first_per, second_per, third_per, first_top, second_top, third_top,
         first_pig, second_pig, third_pig⟩, l)

/-- Reader method `parse_strat_structure`. -/
def parse_strat_structure (b : Buf) (cur_loc : Nat) :
    Except PErr (StratStructure × Nat) := do
  let (_ignore, l) ← decode_string b cur_loc 15
  let (mp_first, l) ← decode_intfloat2 b l
  let (color, l) ← decode_uint8 b l
  let (depth, l) ← decode_uint8 b l
  let (mp_factor, l) ← decode_intfloat4 b l
  let (_ignore, l) ← decode_intfloat2 b l
  let (rank_depth, l) ← decode_uint16 b l
  let (assumed_tables, l) ← decode_uint16 b l
  let (omit_rank, l) ← decode_uint16 b l
  let (min_mps, l) ← decode_uint16 b l
  let (mp_cutoff, l) ← decode_uint16 b l
  let (strat_letter, l) ← decode_char b l
  let (percent_of_open, l) ← decode_uint8 b l
  let (event_m_factor, l) ← decode_real48 b l
  let (ses_m_factor, l) ← decode_real48 b l
  let (_ignore, l) ← decode_uint16 b l
  let (overall, l) ← parse_mp_pigmentation_structure b l
  let (session, l) ← parse_mp_pigmentation_structure b l
  let (sect, l) ← parse_mp_pigmentation_structure b l
  pure (⟨mp_first, color, depth, mp_factor, rank_depth, assumed_tables, omit_rank,
         min_mps, mp_cutoff, strat_letter, percent_of_open, event_m_factor,
         ses_m_factor, overall, session, sect⟩, l)

/-- Reader method `parse_mp_struct`. -/
def parse_mp_struct (b : Buf) (cur_loc : Nat) : Except PErr (MPAward × Nat) := do
  let (mp1, l) ← decode_intfloat2 b cur_loc
  let (mp1_color, l) ← decode_uint8 b l
  let (mp1_rank_type, l) ← decode_uint8 b l
  let (mp2, l) ← decode_intfloat2 b l
  let (mp2_color, l) ← decode_uint8 b l
  let (mp2_rank_type, l) ← decode_uint8 b l
  let (mp3, l) ← decode_intfloat2 b l
  let (mp3_color, l) ← decode_uint8 b l
  let (mp3_rank_type, l) ← decode_uint8 b l
  pure (⟨mp1, mp1_color, mp1_rank_type, mp2, mp2_color, mp2_rank_type,
         mp3, mp3_color, mp3_rank_type⟩, l)

/-- Reader method `parse_ranking`. -/
def parse_ranking (b : Buf) (cur_loc : Nat) : Except PErr (Ranking × Nat) := do
  let (sect_rank, l) ← decode_uint16 b cur_loc
  let (sect_tie, l) ← decode_uint16 b l
  let (overall_rank, l) ← decode_uint16 b l
  let (overall_tie, l) ← decode_uint16 b l
  let (qual, l) ← decode_uint16 b l
  let (rank, l) ← decode_uint16 b l
  let (ind_next_lowest_rank_sec, l) ← decode_uint16 b l
  let (sect_next_lowest_rank_sec, l) ← decode_uint8 b l
  let (dir_next_lowest_rank_sec, l) ← decode_uint8 b l
  let (ind_next_lowest_rank_overall, l) ← decode_uint16 b l
  let (sect_next_lowest_rank_overall, l) ← decode_uint8 b l
  let (dir_next_lowest_rank_overall, l) ← decode_uint8 b l
  pure (⟨sect_rank, sect_tie, overall_rank, overall_tie, qual, rank,
         ind_next_lowest_rank_sec, sect_next_lowest_rank_sec,
         dir_next_lowest_rank_sec, ind_next_lowest_rank_overall,
         sect_next_lowest_rank_overall, dir_next_lowest_rank_overall⟩, l)

/-- Reader method `parse_player_struct`. The `Player` constructor then calls
`bytes.decode()` on the six string fields and the rank character, in the
order of its attribute assignments. -/
def parse_player_struct (b : Buf) (cur_loc : Nat) : Except PErr (Player × Nat) := do
  let (last_name, l) ← decode_string b cur_loc 16
  let (first_name, l) ← decode_string b l 16
  let (city, l) ← decode_string b l 16
  let (state, l) ← decode_string b l 2
  let (acbl_num, l) ← decode_string b l 7
  let (_db_key, l) ← decode_string b l 3
  let (_wins, l) ← decode_intfloat2 b l
  let (_num_teams, l) ← decode_intfloat2 b l
  let (_ignore, l) ← decode_string b l 1
  let (prev_session_mp, l) ← parse_mp_struct b l
  let (cur_session_mp, l) ← parse_mp_struct b l
  let (all_session, l) ← parse_mp_struct b l
  let (_ignore, l) ← decode_string b l 4
  let (total_mps, l) ← decode_uint16 b l
  let (acbl_rank, l) ← decode_char b l
  let (_ignore, l) ← decode_char b l
  let (country, l) ← decode_string b l 2
  let last_name ← pyDecode last_name
  let first_name ← pyDecode first_name
  let city ← pyDecode city
  let state ← pyDecode state
  let country ← pyDecode country
  let acbl_num ← pyDecode acbl_num
  let _rank_chr ← pyDecode [acbl_rank]
  pure (⟨last_name, first_name, city, state, country, acbl_num, acbl_rank,
         total_mps, prev_session_mp, cur_session_mp, all_session⟩, l)

/-- Reader method `parse_memo_structure`. A null pointer yields the empty
string without any read. When the declared `line_count` is positive, the
first loop iteration calls `self.decode_string(63)` with its `max_len`
argument missing, which raises `TypeError` before anything is read; the
declared `length` field is read but never checked. -/
def parse_memo_structure (b : Buf) (cur_loc : Nat) : Except PErr (List Nat) := do
  if cur_loc = 0 then return []
  let (_length, l) ← decode_int16 b cur_loc
  let (_memo_id, l) ← decode_uint16 b l
  let (line_count, _l) ← decode_uint16 b l
  if 0 < line_count then throw .typeError
  pure []

/-- Reader method `parse_note_structure`: same shape as the memo structure,
including the `self.decode_string(75)` call missing its `max_len` argument. -/
def parse_note_structure (b : Buf) (cur_loc : Nat) : Except PErr (List Nat) := do
  if cur_loc = 0 then return []
  let (_length, l) ← decode_int16 b cur_loc
  let (_note_id, l) ← decode_uint16 b l
  let (line_count, _l) ← decode_uint16 b l
  if 0 < line_count then throw .typeError
  pure []

/-- One loop of `parse_mitchell_pairs`: forty groups of four bytes. -/
def mitchQuadLoop (b : Buf) : Nat → Nat → List (List Nat) →
    Except PErr (List (List Nat) × Nat)
  | 0, loc, acc => .ok (acc, loc)
  | k + 1, loc, acc => do
    let (n, l) ← decode_uint8 b loc
    let (e, l) ← decode_uint8 b l
    let (s, l) ← decode_uint8 b l
    let (w, l) ← decode_uint8 b l
    mitchQuadLoop b k l (acc ++ [[n, e, s, w]])

/-- Reader method `parse_mitchell_pairs` (`max_mitchell = 40`). -/
def parse_mitchell_pairs (b : Buf) (cur_loc : Nat) :
    Except PErr (MitchellPair × Nat) := do
  let (reassigned, l) ← mitchQuadLoop b 40 cur_loc []
  let (initial, l) ← mitchQuadLoop b 40 l []
  pure (⟨reassigned, initial⟩, l)

/-- Reader method `parse_howell_pairs`. Its first statement is
`result = HowellPair()`, but `HowellPair` is not among the names imported
from the support module, so the call raises `NameError` before a single
byte is decoded; the explicit `raise ValueError("Howell Movement parsing
has not been verified ...")` at the end of the method is unreachable. -/
def parse_howell_pairs (_b : Buf) (_cur_loc : Nat) :
    Except PErr (MitchellPair × Nat) :=
  .error (.nameError "HowellPair")

/-- Reader method `parse_round_robin_struct`. All field decodes run, then
`result = RoundRobin(...)` raises `NameError`: `RoundRobin` is not among
the imported names. The `ok` type is uninhabited in practice. -/
def parse_round_robin_struct (b : Buf) (cur_loc : Nat) :
    Except PErr (Unit × Nat) := do
  let (_rr_active_flag, l) ← decode_boolean b cur_loc
  let (_rr_starting, l) ← decode_int8 b l
  let (_home_1_sect, l) ← decode_string b l 2
  let (_direction_1, l) ← decode_char b l
  let (_table_1, l) ← decode_int16 b l
  let (_home_2_sect, l) ← decode_string b l 2
  let (_direction_2, l) ← decode_char b l
  let (_table_2, l) ← decode_int16 b l
  let (_home_3_sect, l) ← decode_string b l 2
  let (_direction_3, l) ← decode_char b l
  let (_table_3, _l) ← decode_int16 b l
  throw (.nameError "RoundRobin")

/-- Reader method `parse_team_match_index`. A null pointer yields the empty
string. Otherwise the header fields are decoded and the first
`parse_round_robin_struct` call always fails (see there), so the rest of
the method — which would itself fail on the undefined names
`teamp_match_pt` (typo) or `MatchIndex` (not imported) — is dead code,
mirrored after the failing bind. -/
def parse_team_match_index (b : Buf) (cur_loc : Nat) : Except PErr (List Nat) := do
  if cur_loc = 0 then return []
  let (_length, l) ← decode_int16 b cur_loc
  let (_sect_num, l) ← decode_uint16 b l
  let (num_teams, l) ← decode_uint16 b l
  let (_num_rounds, l) ← decode_uint16 b l
  let (_table_assign, l) ← decode_pointer b l
  let (_cur_rount, l) ← decode_uint8 b l
  let (_num_posted, l) ← decode_uint16 b l
  let (_ignore, l) ← decode_string b l 1
  let (_rr_1, l) ← parse_round_robin_struct b l
  let (_rr_2, l) ← parse_round_robin_struct b l
  let (_vp_pt, l) ← decode_pointer b l
  let (_ignore, _l) ← decode_string b l 24
  if 0 < num_teams then throw (.nameError "teamp_match_pt")
  throw (.nameError "MatchIndex")

/-- Inner loop of `parse_board2_results`. -/
def boardEntryLoop (b : Buf) : Nat → Nat → List BoardEntry →
    Except PErr (List BoardEntry × Nat)
  | 0, loc, acc => .ok (acc, loc)
  | k + 1, loc, acc => do
    let (rnd, l) ← decode_uint8 b loc
    let (table, l) ← decode_uint8 b l
    let (ns, l) ← decode_uint16 b l
    let (ns_score, l) ← decode_uint16 b l
    let (ns_mp, l) ← decode_intfloat2long b l
    let (ew, l) ← decode_uint16 b l
    let (ew_score, l) ← decode_uint16 b l
    let (ew_mp, l) ← decode_intfloat2long b l
    boardEntryLoop b k l
      (acc ++ [⟨rnd, table, ns, ns_score, ns_mp, ew, ew_score, ew_mp⟩])

/-- Reader method `parse_board2_results`: validates only the
competitive-units byte (must be 2); the declared `length` is read and
ignored. There is no null-pointer check. -/
def parse_board2_results (b : Buf) (cur_loc : Nat) : Except PErr BoardResults := do
  let (_length, l) ← decode_int16 b cur_loc
  let (board_id, l) ← decode_uint16 b l
  let (comp_units, l) ← decode_uint8 b l
  if comp_units ≠ 2 then throw (.invalidBoardResults comp_units)
  let (num_results, l) ← decode_uint8 b l
  let (entries, _l) ← boardEntryLoop b num_results l []
  pure { board_id := board_id, num_competitive_units := comp_units,
         num_valid_results := num_results, entries := entries }

/-- Outer loop of `parse_boards_index`: the three setter methods are applied
to each decoded `BoardResults` before it is appended. -/
def boardsLoop (b : Buf) : Nat → Nat → List BoardResults →
    Except PErr (List BoardResults × Nat)
  | 0, loc, acc => .ok (acc, loc)
  | k + 1, loc, acc => do
    let (board_num, l) ← decode_uint8 b loc
    let (travellers, l) ← decode_boolean b l
    let (num_results, l) ← decode_uint16 b l
    let (res_pt, l) ← decode_pointer b l
    let board_results ← parse_board2_results b res_pt
    let board_results := { board_results with
                           travellers := some travellers
                           board_num := some board_num
                           num_results := some num_results }
    boardsLoop b k l (acc ++ [board_results])

/-- Reader method `parse_boards_index`. A null pointer yields the empty
string (`none`); the declared `length` is read and ignored. -/
def parse_boards_index (b : Buf) (cur_loc : Nat) :
    Except PErr (Option BoardList) := do
  if cur_loc = 0 then return none
  let (_length, l) ← decode_int16 b cur_loc
  let (sect_num, l) ← decode_uint16 b l
  let (num_boards, l) ← decode_uint16 b l
  let (_ignore, l) ← decode_string b l 31
  let (boards, _l) ← boardsLoop b num_boards l []
  pure (some ⟨sect_num, num_boards, boards⟩)

/-- Reader method `parse_pair_struct`. The declared `length` is read and
ignored; the decoded `final_score` is passed to the `PairDetails`
constructor, which drops it (see `PairDetails`). -/
def parse_pair_struct (b : Buf) (cur_loc : Nat) : Except PErr PairDetails := do
  let (_length, l) ← decode_int16 b cur_loc
  let (pair_id, l) ← decode_uint16 b l
  let (adjustment, l) ← decode_intfloat2long b l
  let (unscaled, l) ← decode_intfloat2long b l
  let (ses_score, l) ← decode_intfloat2long b l
  let (carry_over_score, l) ← decode_intfloat2long b l
  let (_final_score, l) ← decode_intfloat2long b l
  let (handicap, l) ← decode_intfloat2long b l
  let (partnership_per, l) ← decode_intfloat2 b l
  let (partnership_strat, l) ← decode_uint8 b l
  let (_ignore, l) ← decode_uint8 b l
  let (avg_mps, l) ← decode_uint32 b l
  let (_ignore, l) ← decode_string b l 3
  let (next_session_sect, l) ← decode_string b l 2
  let (direction, l) ← decode_char b l
  let (next_session_table, l) ← decode_uint16 b l
  let (next_session_change, l) ← decode_uint8 b l
  let (boards_played, l) ← decode_uint16 b l
  let (_ignore, l) ← decode_string b l 1
  let (eligibility_status, l) ← decode_uint8 b l
  let (prev_session_mp, l) ← parse_mp_struct b l
  let (cur_session_mp, l) ← parse_mp_struct b l
  let (all_session, l) ← parse_mp_struct b l
  let (_ignore, l) ← decode_string b l 5
  let (strat1_rank, l) ← parse_ranking b l
  let (strat2_rank, l) ← parse_ranking b l
  let (strat3_rank, l) ← parse_ranking b l
  let (_ignore, l) ← decode_string b l 9
  let (player1, l) ← parse_player_struct b l
  let (player2, _l) ← parse_player_struct b l
  pure ⟨pair_id, adjustment, unscaled, ses_score, carry_over_score, handicap,
        partnership_per, partnership_strat, avg_mps, next_session_sect,
        direction, next_session_table, next_session_change, boards_played,
        eligibility_status, prev_session_mp, cur_session_mp, all_session,
        strat1_rank, strat2_rank, strat3_rank, player1, player2⟩

/-- Per-pair loop of `parse_pair_index`: each entry is three ignored bytes
and a pointer to a pair structure (followed with no null check). -/
def pairLoop (b : Buf) : Nat → Nat → List PairDetails →
    Except PErr (List PairDetails × Nat)
  | 0, loc, acc => .ok (acc, loc)
  | k + 1, loc, acc => do
    let (_ignore, l) ← decode_string b loc 3
    let (pair_struct_pt, l) ← decode_pointer b l
    let pair_struct ← parse_pair_struct b pair_struct_pt
    pairLoop b k l (acc ++ [pair_struct])

/-- Reader method `parse_pair_index`. Unlike the other substructure readers
it has no null-pointer short circuit: called with pointer `0` it reads the
index table from offset 0. The declared `length` is read and ignored;
`direction` must be 1 or 2 and `num_players` must be 2. -/
def parse_pair_index (b : Buf) (cur_loc : Nat) : Except PErr PairList := do
  let (_length, l) ← decode_int16 b cur_loc
  let (direction, l) ← decode_uint16 b l
  if direction < 1 ∨ 2 < direction then throw (.invalidDirection direction)
  let (num_players, l) ← decode_uint16 b l
  if num_players ≠ 2 then throw (.numPlayersNot2 num_players)
  let (num_pairs, l) ← decode_uint16 b l
  let (_strat1_pt, l) ← decode_pointer b l
  let (_strat2_pt, l) ← decode_pointer b l
  let (_strat3_pt, l) ← decode_pointer b l
  let (pairs, _l) ← pairLoop b num_pairs l []
  pure ⟨direction, num_pairs, pairs⟩

/-- Reader method `parse_section_strat`. -/
def parse_section_strat (b : Buf) (cur_loc : Nat) :
    Except PErr (SectionStrat × Nat) := do
  let (ns_rank_depth, l) ← decode_int16 b cur_loc
  let (ew_rank_depth, l) ← decode_int16 b l
  let (s_rank_depth, l) ← decode_int16 b l
  let (w_rank_depth, l) ← decode_int16 b l
  let (ns_num, l) ← decode_uint16 b l
  let (ew_num, l) ← decode_uint16 b l
  let (s_num, l) ← decode_uint16 b l
  let (w_num, l) ← decode_uint16 b l
  let (ns_qual_depth, l) ← decode_int16 b l
  let (ew_qual_depth, l) ← decode_int16 b l
  let (s_qual_depth, l) ← decode_int16 b l
  let (w_qual_depth, l) ← decode_int16 b l
  let (_ignore, l) ← decode_uint8 b l
  pure (⟨ns_rank_depth, ew_rank_depth, s_rank_depth, w_rank_depth,
         ns_num, ew_num, s_num, w_num,
         ns_qual_depth, ew_qual_depth, s_qual_depth, w_qual_depth⟩, l)

/-- Reader method `parse_section_details`. A null pointer yields a bare
`SectionDetails()`. The self-declared length must be 802. The entry-shape
branch: a nonzero south-individual pointer selects individual play (the
four `parse_player_struct` results are stored as unexamined
(player, offset) tuples); otherwise a nonzero east-west pointer selects
pair play (note the north-south pointer is dereferenced with no null
check); otherwise `self.parse_teams_index(...)` raises `AttributeError`
because no such method exists. -/
def parse_section_details (b : Buf) (cur_loc : Nat) : Except PErr SectionDetails := do
  if cur_loc = 0 then return SectionDetails.empty
  let (length, l) ← decode_int16 b cur_loc
  if length ≠ 802 then throw .sectionDetailsLength
  let (sect_num, l) ← decode_uint16 b l
  let (ns_pairs_pt, l) ← decode_pointer b l
  let (ew_pairs_pt, l) ← decode_pointer b l
  let (s_ind_pt, l) ← decode_pointer b l
  let (w_ind_pt, l) ← decode_pointer b l
  let (ns_pairs, ew_pairs, s_inds, w_inds) ←
    if s_ind_pt ≠ 0 then do
      let np ← parse_player_struct b ns_pairs_pt
      let ep ← parse_player_struct b ew_pairs_pt
      let sp ← parse_player_struct b s_ind_pt
      let wp ← parse_player_struct b w_ind_pt
      pure (EntryIndex.plyrLoc np.1 np.2, EntryIndex.plyrLoc ep.1 ep.2,
            EntryIndex.plyrLoc sp.1 sp.2, EntryIndex.plyrLoc wp.1 wp.2)
    else if ew_pairs_pt ≠ 0 then do
      let np ← parse_pair_index b ns_pairs_pt
      let ep ← parse_pair_index b ew_pairs_pt
      pure (EntryIndex.pairs np, EntryIndex.pairs ep,
            EntryIndex.blank, EntryIndex.blank)
    else
      throw (.attributeError "parse_teams_index")
  let (_mp_pt, l) ← decode_pointer b l
  let (howell_flag, l) ← decode_boolean b l
  let (boards_in_play, l) ← decode_uint16 b l
  let (highest_pair, l) ← decode_uint16 b l
  let (boards_per_round, l) ← decode_uint8 b l
  let (top_on_board, l) ← decode_uint16 b l
  let (bye_stand_location, l) ← decode_uint16 b l
  let (rover_movement, l) ← decode_uint16 b l
  let (board_1_table, l) ← decode_uint16 b l
  let (skip_round, l) ← decode_uint16 b l
  let (_ignore, l) ← decode_uint16 b l
  let (names_entered, l) ← decode_uint16 b l
  let (carry_over_flag, l) ← decode_boolean b l
  let (max_number_played, l) ← decode_uint8 b l
  let (board_factor, l) ← decode_intfloat1 b l
  let (score_adjust, l) ← decode_intfloat1 b l
  let (scores_factored_flag, l) ← decode_boolean b l
  let (posting_method, l) ← decode_uint8 b l
  let (posted, l) ← decode_boolean b l
  let (num_rounds, l) ← decode_uint16 b l
  let (movement_name, l) ← decode_string b l 11
  let (phantom, l) ← decode_int16 b l
  let (color_ind, l) ← decode_uint8 b l
  let (dbadd_count, l) ← decode_uint8 b l
  let (barometer_flag, l) ← decode_boolean b l
  let (num_tables, l) ← decode_uint16 b l
  let (_ignore, l) ← decode_string b l 3
  let (total_mps, l) ← decode_uint16 b l
  let (color_str, l) ← decode_string b l 6
  let (_ignore, l) ← decode_string b l 3
  let (change_post_method, l) ← decode_uint8 b l
  let (_ignore, l) ← decode_string b l 3
  let (movement_flag, l) ← decode_boolean b l
  let (max_board_play, l) ← decode_uint8 b l
  let (outside_adj, l) ← decode_boolean b l
  let (posting_sequence, l) ← decode_uint8 b l
  let (rover_start, l) ← decode_uint16 b l
  let (_ignore, l) ← decode_string b l 1
  let (strat1, l) ← parse_section_strat b l
  let (strat2, l) ← parse_section_strat b l
  let (strat3, l) ← parse_section_strat b l
  let (_ignore, l) ← decode_string b l 1
  let (match_award, l) ← decode_intfloat2 b l
  let (_ignore, l) ← decode_string b l 1
  let (vp_scale, l) ← decode_uint8 b l
  let (_ignore, l) ← decode_string b l 2
  let (mod_time, l) ← decode_date b l
  let (_ignore, l) ← decode_string b l 15
  let (memo_ptr, l) ← decode_pointer b l
  let memo ← parse_memo_structure b memo_ptr
  let (bam_move, l) ← decode_boolean b l
  let (_ignore, l) ← decode_string b l 1
  let (score_version, l) ← decode_intfloat2 b l
  let (phantom2, l) ← decode_uint8 b l
  let (phantom3, l) ← decode_uint8 b l
  let (manual_score_flag, l) ← decode_boolean b l
  let (pair_map, l) ←
    if howell_flag then parse_howell_pairs b l else parse_mitchell_pairs b l
  let (_ignore, l) ← decode_string b l 23
  let (club_num, l) ← decode_string b l 6
  let (_ignore, l) ← decode_uint8 b l
  let (match_index_ptr, l) ← decode_pointer b l
  let team_match ← parse_team_match_index b match_index_ptr
  let (strat1_pairs, l) ← decode_uint16 b l
  let (strat2_pairs, l) ← decode_uint16 b l
  let (strat3_pairs, _l) ← decode_uint16 b l
  pure (SectionDetails.filled
    { section_number := sect_num
      ns_pairs := ns_pairs
      ew_pairs := ew_pairs
      south_ind := s_inds
      west_ind := w_inds
      howell_flag := howell_flag
      num_boards_in_play := boards_in_play
      highest_pair_numbe := highest_pair
      num_boards_per_round := boards_per_round
      top_on_board := top_on_board
      location_of_bye_stand := bye_stand_location
      rover_movement_mode := rover_movement
      starting_table_for_board_1 := board_1_table
      ew_skip_after_round := skip_round
      names_entered_status := names_entered
      carry_over_scores_flag := carry_over_flag
      max_number_boards_to_play := max_number_played
      board_factor := board_factor
      score_adjust_average := score_adjust
      scores_factored_flag := scores_factored_flag
      posting_method := posting_method
      posted_flag := posted
      num_rounds := num_rounds
      movement_name := movement_name
      phantom_pair_number := phantom
      section_color_ind := color_ind
      dbadd_count := dbadd_count
      barometer_game_flag := barometer_flag
      num_tables := num_tables
      total_mp_score := total_mps
      section_color_str := color_str
      round_for_change_in_posting_method := change_post_method
      web_movement_flag := movement_flag
      max_times_board_played := max_board_play
      outside_adjustments_entered_flag := outside_adj
      sequence_used_in_posting := posting_sequence
      table_for_rover_pair_start := rover_start
      strat1 := strat1
      strat2 := strat2
      strat3 := strat3
      match_award_mps := match_award
      victory_point_scale := vp_scale
      section_modification_time := mod_time
      bam_movement_flag := bam_move
      acbl_score_version := score_version
      phantom_player_2 := phantom2
      phantom_player_3 := phantom3
      manual_scoring_flag := manual_score_flag
      pair_map := pair_map
      club_number := club_num
      num_elibible_strat1_pairs := strat1_pairs
      num_elibible_strat2_pairs := strat2_pairs
      num_elibible_strat3_pairs := strat3_pairs
      memo := memo
      team_match := team_match })

/-- Reader method `parse_section_summary`. The two `prev`/`next` score and
rank bytes are decoded and dropped, as in the source. -/
def parse_section_summary (b : Buf) (cur_loc : Nat) :
    Except PErr (SectionSummary × Nat) := do
  let (num, l) ← decode_uint8 b cur_loc
  let (name, l) ← decode_string b l 2
  let (details_ptr, l) ← decode_pointer b l
  let details ← parse_section_details b details_ptr
  let (boards_pt, l) ← decode_pointer b l
  let boards ← parse_boards_index b boards_pt
  let (total_mps, l) ← decode_uint16 b l
  let (status, l) ← decode_uint8 b l
  let (_prev_sec_score, l) ← decode_uint8 b l
  let (_next_sec_score, l) ← decode_uint8 b l
  let (_prev_sec_rank, l) ← decode_uint8 b l
  let (_next_sec_rank, l) ← decode_uint8 b l
  let (num_rounds_entered, l) ← decode_uint8 b l
  let (num_rounds_total, l) ← decode_uint8 b l
  let (flags, l) ← decode_uint8 b l
  pure (⟨num, name, details, boards, total_mps, status,
         num_rounds_entered, num_rounds_total, flags⟩, l)

set_option maxRecDepth 8192 in
/-- Reader method `parse_event_details`. The declared `length`, the board
average, the charity name and the various `ignore` fields are decoded and
dropped, exactly as in the source; the embedded memo pointer is followed
through `parse_memo_structure`. -/
def parse_event_details (b : Buf) (cur_loc : Nat) : Except PErr EventDetails := do
  let (_length, l) ← decode_int16 b cur_loc
  let (num, l) ← decode_int16 b l
  let (event_name, l) ← decode_string b l 25
  let (ses_name, l) ← decode_string b l 13
  let (director, l) ← decode_string b l 16
  let (sanction, l) ← decode_string b l 10
  let (date, l) ← decode_string b l 19
  let (club_name, l) ← decode_string b l 25
  let (event_code, l) ← decode_string b l 4
  let (_ignore, l) ← decode_string b l 1
  let (mp_per, l) ← decode_intfloat1 b l
  let (_ignore, l) ← decode_string b l 1
  let (per_qual, l) ← decode_intfloat2 b l
  let (mp_rate, l) ← decode_intfloat1 b l
  let (_ignore, l) ← decode_string b l 1
  let (age_strat, l) ← decode_boolean b l
  let (rating, l) ← decode_uint8 b l
  let (eoe, l) ← decode_uint8 b l
  let (_board_avg, l) ← decode_uint16 b l
  let (ses_num, l) ← decode_uint8 b l
  let (handicap, l) ← decode_uint8 b l
  let (start_sess_num, l) ← decode_uint8 b l
  let (carry_over, l) ← decode_boolean b l
  let (data_ed, l) ← decode_boolean b l
  let (neg_hand, l) ← decode_boolean b l
  let (verified, l) ← decode_uint8 b l
  let (_ignored, l) ← decode_uint8 b l
  let (max_imp_swing, l) ← decode_uint8 b l
  let (club_ses, l) ← decode_uint8 b l
  let (tie_break, l) ← decode_intfloat2 b l
  let (perfect, l) ← decode_uint16 b l
  let (top_on_board, l) ← decode_uint16 b l
  let (_ignore, l) ← decode_uint16 b l
  let (num_strats, l) ← decode_uint8 b l
  let (num_ses_total, l) ← decode_uint8 b l
  let (consol_flag, l) ← decode_boolean b l
  let (club_game, l) ← decode_uint8 b l
  let (_ignore, l) ← decode_string b l 6
  let (_ignore, l) ← decode_uint8 b l
  let (_ignore, l) ← decode_string b l 3
  let (newcomers, l) ← decode_uint16 b l
  let (club_number, l) ← decode_string b l 6
  let (mod_time, l) ← decode_date b l
  let (_ignore, l) ← decode_uint16 b l
  let (memo_ptr, l) ← decode_pointer b l
  let memo ← parse_memo_structure b memo_ptr
  let (_ignore, l) ← decode_uint8 b l
  let (num_brackets, l) ← decode_uint8 b l
  let (bracket_number, l) ← decode_uint8 b l
  let (_ignore, l) ← decode_uint8 b l
  let (qual_event_code, l) ← decode_string b l 4
  let (hand_award_meth, l) ← decode_uint8 b l
  let (_ignore, l) ← decode_uint8 b l
  let (imp_calc_flag, l) ← decode_boolean b l
  let (edxov, l) ← decode_boolean b l
  let (contin_pairs, l) ← decode_boolean b l
  let (_ignore, l) ← decode_string b l 2
  let (qualifying_event, l) ← decode_boolean b l
  let (_ignore, l) ← decode_uint8 b l
  let (strat1_struct, l) ← parse_strat_structure b l
  let (strat2_struct, l) ← parse_strat_structure b l
  let (strat3_struct, l) ← parse_strat_structure b l
  let (_ignore, l) ← decode_uint32 b l
  let (perc_qualify, l) ← decode_uint8 b l
  let (_ignore, l) ← decode_uint8 b l
  let (lm_strat1, l) ← decode_int8 b l
  let (lm_strat2, l) ← decode_int8 b l
  let (lm_strat3, l) ← decode_int8 b l
  let (nap_level, l) ← decode_uint8 b l
  let (_ignore, l) ← decode_string b l 65
  let (split_site_flag, l) ← decode_boolean b l
  let (add_factor_multi, l) ← decode_real48 b l
  let (acbl_hands, l) ← decode_string b l 8
  let (_ignore, l) ← decode_uint16 b l
  let (per_instead_of_mp, l) ← decode_boolean b l
  let (_ignore, l) ← decode_boolean b l
  let (seniors, l) ← decode_boolean b l
  let (restrictions, l) ← decode_uint8 b l
  let (side_game, l) ← decode_boolean b l
  let (mp_version, l) ← decode_uint8 b l
  let (_ignore, l) ← decode_string b l 21
  let (print_unpaid, l) ← decode_boolean b l
  let (_ignore, l) ← decode_string b l 8
  let (game_fee, l) ← decode_real48 b l
  let (table_fee, l) ← decode_real48 b l
  let (charity_fee, l) ← decode_real48 b l
  let (_ignore, l) ← decode_string b l 13
  let (_charity_name, l) ← decode_string b l 50
  let (strat_avg, l) ← decode_boolean b l
  let (recap_per, l) ← decode_boolean b l
  let (nonacbl, _l) ← decode_boolean b l
  pure
    { num := num
      event_name := event_name
      session_name := ses_name
      director := director
      tournament_sanction := sanction
      date := date
      club_name := club_name
      event_code := event_code
      memo := memo
      mp_percentage_p_factor := mp_per
      percent_qualifying := per_qual
      mp_rating_t_factor := mp_rate
      stratify_by_age := age_strat
      rating := rating
      end_of_event_flag := eoe
      handicap := handicap
      session_number := ses_num
      starting_session_number := start_sess_num
      carryover_calculated := carry_over
      data_edited := data_ed
      negative_handicap_flag := neg_hand
      mp_award_verified := verified
      max_imp_swing := max_imp_swing
      club_session := club_ses
      tie_break_spread := tie_break
      mps_for_perfect_game := perfect
      top_on_a_board := top_on_board
      number_strats := num_strats
      total_number_sessions := num_ses_total
      consolation_flag := consol_flag
      club_game_type := club_game
      number_newcomer_tables := newcomers
      club_number := club_number
      event_modification_time := mod_time
      number_brackets := num_brackets
      backet_number := bracket_number
      qualifying_event_code := qual_event_code
      handicap_dual_ranking_method := hand_award_meth
      imp_datum_calc_flag := imp_calc_flag
      edxov_done := edxov
      continious_pairs_flag := contin_pairs
      qualifying_event_flag := qualifying_event
      strat1_structure := strat1_struct
      strat2_structure := strat2_struct
      strat3_structure := strat3_struct
      percent_to_qualify := perc_qualify
      lm_eligibility_strat_1 := lm_strat1
      lm_eligibility_strat_2 := lm_strat2
      lm_eligibility_strat_3 := lm_strat3
      level_for_nap_or_gnt := nap_level
      split_site_flag := split_site_flag
      additional_factor_for_multi_site_events := add_factor_multi
      set_number_of_ACBL_hands := acbl_hands
      display_percentages_instead_of_mps := per_instead_of_mp
      senior_event := seniors
      event_restrictions := restrictions
      side_game_flag := side_game
      version_of_mp_award := mp_version
      print_unpaid_flag := print_unpaid
      game_sanction_fee := game_fee
      table_sanction_fee := table_fee
      charity_sanction_fee := charity_fee
      stratify_by_average_flag := strat_avg
      recaps_in_percent_flag := recap_per
      non_acbl_flag := nonacbl }

/-- Lines 79–97 of `parse_master_table`: minimum size, declared table
length (must be 2578), identifier, and file-length checks. The identifier
field is a length-prefixed string, so the comparison with `b'AC3'` passes
exactly when byte 2 is `3` and bytes 3–5 are `A`, `C`, `3`. When it
fails, the source builds the error message as
`"Invalid ACBLscore file identifier: " + ac3_id` — a `str + bytes`
concatenation — so the raise site itself raises `TypeError` and the
intended `ValueError` is never constructed. -/
def master_header_checks (b : Buf) : Except PErr Nat := do
  if b.size < 0x0a14 then throw .fileTooSmall
  let (table_length, l) ← decode_int16 b 0
  if table_length ≠ 2578 then throw (.tableLengthIncorrect table_length)
  let (ac3_id, l) ← decode_string b l 3
  if ac3_id ≠ [65, 67, 51] then throw .typeError
  let (file_length, l) ← decode_uint32 b l
  if file_length ≠ b.size then throw (.fileLengthMismatch file_length b.size)
  pure l

/-- First `for` loop of `parse_master_table`: fifty event pointers, each
followed when nonzero; an entry dictionary is appended per slot. Errors
propagate but the entries appended so far stay in the parser state, so the
loop returns its partial accumulator alongside the outcome. -/
def eventLoop (b : Buf) : Nat → Nat → List EventEntry →
    List EventEntry × Except PErr Nat
  | 0, loc, ev => (ev, .ok loc)
  | k + 1, loc, ev =>
    match decode_pointer b loc with
    | .error e => (ev, .error e)
    | .ok (event_loc, l) =>
      if event_loc ≠ 0 then
        match parse_event_details b event_loc with
        | .error e => (ev, .error e)
        | .ok d => eventLoop b k l (ev ++ [⟨some d, none, none⟩])
      else eventLoop b k l (ev ++ [⟨none, none, none⟩])

/-- Python `self.events[i][key] = cur`: index assignment into the current
events list, `IndexError` when the index is out of range. -/
def setEventEntry (ev : List EventEntry) (i : Nat) (f : EventEntry → EventEntry) :
    Except PErr (List EventEntry) :=
  if h : i < ev.length then .ok (ev.set i (f (ev.get ⟨i, h⟩)))
  else .error .indexError

/-- Second and third `for` loops of `parse_master_table`: fifty bytes, each
stored into `self.events[i]` under the `type` (resp. `scoring`) key via the
setter passed in. The loop starts at index `i` and runs `k` more times. -/
def eventFieldLoop (b : Buf) (upd : Nat → EventEntry → EventEntry) :
    Nat → Nat → Nat → List EventEntry → List EventEntry × Except PErr Nat
  | 0, _i, loc, ev => (ev, .ok loc)
  | k + 1, i, loc, ev =>
    match decode_uint8 b loc with
    | .error e => (ev, .error e)
    | .ok (cur, l) =>
      match setEventEntry ev i (upd cur) with
      | .error e => (ev, .error e)
      | .ok ev2 => eventFieldLoop b upd k (i + 1) l ev2

/-- Fourth `for` loop of `parse_master_table`: one hundred section
summaries appended to `self.sections`. -/
def sectionLoop (b : Buf) : Nat → Nat → List SectionSummary →
    List SectionSummary × Except PErr Nat
  | 0, loc, secs => (secs, .ok loc)
  | k + 1, loc, secs =>
    match parse_section_summary b loc with
    | .error e => (secs, .error e)
    | .ok (s, l) => sectionLoop b k l (secs ++ [s])

/-- Lines 98–143 of `parse_master_table`: everything after the header
checks. The state carries the partially mutated `self.events` /
`self.sections` on failure, mirroring that the Python parser object keeps
whatever was appended before an exception unwound. -/
def parse_master_body (b : Buf) (s : State) (loc : Nat) : State × Except PErr Nat :=
  match decode_pointer b loc with
  | .error e => (s, .error e)
  | .ok (_free_bloc, l1) =>
  match decode_pointer b l1 with
  | .error e => (s, .error e)
  | .ok (_instant_mp_table, l2) =>
  match eventLoop b 50 l2 s.events with
  | (ev, .error e) => ({ s with events := ev }, .error e)
  | (ev, .ok l3) =>
  match eventFieldLoop b (fun cur x => { x with etype := some cur }) 50 0 l3 ev with
  | (ev2, .error e) => ({ s with events := ev2 }, .error e)
  | (ev2, .ok l4) =>
  match eventFieldLoop b (fun cur x => { x with scoring := some cur }) 50 0 l4 ev2 with
  | (ev3, .error e) => ({ s with events := ev3 }, .error e)
  | (ev3, .ok l5) =>
  match sectionLoop b 100 l5 s.sections with
  | (secs, .error e) => ({ s with events := ev3, sections := secs }, .error e)
  | (secs, .ok l6) =>
  match decode_pointer b l6 with
  | .error e => ({ events := ev3, sections := secs, header := s.header }, .error e)
  | .ok (memo_pointer, l7) =>
  match parse_memo_structure b memo_pointer with
  | .error e => ({ events := ev3, sections := secs, header := s.header }, .error e)
  | .ok memo =>
  match decode_boolean b l7 with
  | .error e => ({ events := ev3, sections := secs, header := s.header }, .error e)
  | .ok (_club_present, l8) =>
  match decode_intfloat2 b l8 with
  | .error e => ({ events := ev3, sections := secs, header := s.header }, .error e)
  | .ok (score_version, l9) =>
  match decode_date b l9 with
  | .error e => ({ events := ev3, sections := secs, header := s.header }, .error e)
  | .ok (create_date, l10) =>
  match decode_intfloat2 b l10 with
  | .error e => ({ events := ev3, sections := secs, header := s.header }, .error e)
  | .ok (min_score_version, l11) =>
  match decode_pointer b l11 with
  | .error e => ({ events := ev3, sections := secs, header := s.header }, .error e)
  | .ok (note_pointer, l12) =>
  match parse_note_structure b note_pointer with
  | .error e => ({ events := ev3, sections := secs, header := s.header }, .error e)
  | .ok note =>
  match decode_string b l12 8 with
  | .error e => ({ events := ev3, sections := secs, header := s.header }, .error e)
  | .ok (_ignored, l13) =>
  match decode_pointer b l13 with
  | .error e => ({ events := ev3, sections := secs, header := s.header }, .error e)
  | .ok (_imp_table_ptr, l14) =>
  match decode_string b l14 7 with
  | .error e => ({ events := ev3, sections := secs, header := s.header }, .error e)
  | .ok (_ignored, l15) =>
  match decode_uint8 b l15 with
  | .error e => ({ events := ev3, sections := secs, header := s.header }, .error e)
  | .ok (global_options, l16) =>
  match decode_string b l16 21 with
  | .error e => ({ events := ev3, sections := secs, header := s.header }, .error e)
  | .ok (_ignored, l17) =>
  match decode_uint8 b l17 with
  | .error e => ({ events := ev3, sections := secs, header := s.header }, .error e)
  | .ok (bridgemate, l18) =>
  ({ events := ev3, sections := secs,
     header := some (MasterTable.init score_version memo note
       min_score_version create_date bridgemate global_options) }, .ok l18)

/-- Reader method `parse_master_table`: header checks, then the body. An
exception leaves the parser state as it was when the exception unwound;
the accumulated `events` and `sections` are *not* cleared at entry, so a
second invocation keeps appending to whatever is already there. -/
def parse_master_table (b : Buf) (s : State) : State × Except PErr Nat :=
  match master_header_checks b with
  | .error e => (s, .error e)
  | .ok loc => parse_master_body b s loc

/-- Byte content of a minimal conformant file: declared table length 2578,
length-prefixed identifier `AC3`, file length 2580, all event and section
pointers null, and a creation-date word encoding 1980-01-01T00:00:00
(bytes 2525–2528 hold the little-endian word `0x00210000`). -/
def minimalBufF : Nat → Nat := fun i =>
  if i = 0 then 0x12 else if i = 1 then 0x0a
  else if i = 2 then 3 else if i = 3 then 65
  else if i = 4 then 67 else if i = 5 then 51
  else if i = 6 then 0x14 else if i = 7 then 0x0a
  else if i = 2527 then 0x21
  else 0

/-- The minimal conformant 2580-byte file. -/
def minimalBuf : Buf := ⟨2580, minimalBufF⟩

/-- The minimal file truncated by one byte. -/
def minimalTrunc : Buf := ⟨2579, minimalBufF⟩

/-- The minimal file with its identifier changed from `AC3` to `AC2`
(byte 5 becomes the ASCII digit `2`). -/
def c1IdMismatchBuf : Buf := ⟨2580, fun i => if i = 5 then 50 else minimalBufF i⟩

/-- A one-byte buffer: `parse_pair_index` at pointer 0 must read a 16-bit
length at offset 0 and hits the end of this buffer. -/
def oneZeroByteBuf : Buf := ⟨1, fun _ => 0⟩

/-- A buffer whose start looks like a pair-index table: direction 1 at
bytes 2–3, two players at bytes 4–5, zero pairs. -/
def pairIndexAtZeroBuf : Buf := ⟨30, fun i => if i = 2 then 1 else if i = 4 then 2 else 0⟩

/-- A memo structure at offset 2 whose self-declared length field is 12345
and whose line count is zero. -/
def memoBadLengthBuf : Buf := ⟨10, fun i => if i = 2 then 0x39 else if i = 3 then 0x30 else 0⟩

/-- An all-zero ten-byte buffer (a memo structure at offset 2 with declared
length 0 and line count 0). -/
def memoZerosBuf : Buf := ⟨10, fun _ => 0⟩

/-- A memo structure at offset 2 declaring one line (bytes 6–7 = 1). -/
def memoOneLineBuf : Buf := ⟨10, fun i => if i = 6 then 1 else 0⟩

/-- An all-zero buffer large enough for the master-table size guard but
with a zero declared table length. -/
def zeros2580 : Buf := ⟨2580, fun _ => 0⟩

/-- An all-zero thirty-byte buffer. -/
def zeros30 : Buf := ⟨30, fun _ => 0⟩

/-- An individual-play section-details record at offset 2: declared length
802 (bytes 2–3), south-individual pointer 1 (byte 14), modification-time
word encoding 1980-01-01 (byte 193), everything else zero. -/
def indivSectionBuf : Buf := ⟨600, fun i =>
  if i = 2 then 0x22 else if i = 3 then 0x03
  else if i = 14 then 1
  else if i = 193 then 0x21
  else 0⟩

/-- A team-play section-details record at offset 2: declared length 802,
all four entry-index pointers zero. -/
def teamsSectionBuf : Buf := ⟨30, fun i => if i = 2 then 0x22 else if i = 3 then 0x03 else 0⟩

/-- Four zero bytes: the date word `0x00000000`. -/
def dateZeroBuf : Buf := ⟨4, fun _ => 0⟩

/-- The date word `0x00210000` (1980-01-01T00:00:00) in little-endian bytes. -/
def dateGoodBuf : Buf := ⟨4, fun i => if i = 2 then 0x21 else 0⟩

/-- Six bytes `00 00 00 00 00 01`: real48 exponent 0 with mantissa 1. -/
def real48ZeroExpBuf : Buf := ⟨6, fun i => if i = 5 then 1 else 0⟩

/-- Six zero bytes: the all-zero real48. -/
def real48Zeros : Buf := ⟨6, fun _ => 0⟩

/-- Two bytes `81 40`: a real48 field that extends four bytes past the end
of the buffer. -/
def real48TruncBuf : Buf := ⟨2, fun i => if i = 0 then 129 else 64⟩

/-- Header condition 1 of the master table: the buffer passes the
minimum-size guard (`len(data) < 0x0a14` raises first). -/
def hdrSizeOk (b : Buf) : Prop := 0x0a14 ≤ b.size

/-- Header condition 2: the first two bytes, read as a little-endian
(signed) 16-bit integer, equal 2578. -/
def hdrLenOk (b : Buf) : Prop := sgn16 (leU16 b 0) = 2578

/-- Header condition 3: the identifier field — byte 2 is the string length
3 and bytes 3–5 are the ASCII characters `A`, `C`, `3`. -/
def hdrIdOk (b : Buf) : Prop :=
  b.byte 2 = 3 ∧ b.byte 3 = 65 ∧ b.byte 4 = 67 ∧ b.byte 5 = 51

/-- Header condition 4: the four-byte little-endian file-length field at
offset 6 equals the byte length of the buffer. -/
def hdrFileLenOk (b : Buf) : Prop := leU32 b 6 = b.size

instance (b : Buf) : Decidable (hdrSizeOk b) := by unfold hdrSizeOk; infer_instance
instance (b : Buf) : Decidable (hdrLenOk b) := by unfold hdrLenOk; infer_instance
instance (b : Buf) : Decidable (hdrIdOk b) := by unfold hdrIdOk; infer_instance
instance (b : Buf) : Decidable (hdrFileLenOk b) := by unfold hdrFileLenOk; infer_instance

/-- The three master-table header validation errors (all `ValueError`s of
lines 80, 87 and 95 of the reader); every other failure the program can
produce is a different exception site. -/
def PErr.isHeaderErr : PErr → Bool
  | .fileTooSmall => true
  | .tableLengthIncorrect _ => true
  | .fileLengthMismatch _ _ => true
  | _ => false

/-- The computation never fails with one of the master-table header
validation errors. -/
def NoHdr {α : Type} (x : Except PErr α) : Prop :=
  ∀ e, x = .error e → e.isHeaderErr = false

theorem noHdr_bind {α β : Type} {x : Except PErr α} {f : α → Except PErr β}
    (hx : NoHdr x) (hf : ∀ a, NoHdr (f a)) : NoHdr (x >>= f) := by
  intro e he
  cases x with
  | error e' =>
    have : e' = e := by
      simpa [Bind.bind, Except.bind] using he
    exact this ▸ hx e' rfl
  | ok a =>
    exact hf a e (by simpa [Bind.bind, Except.bind] using he)

theorem noHdr_pure {α : Type} (a : α) : NoHdr (pure (f := Except PErr) a) := by
  intro e he
  simp [pure, Except.pure] at he

theorem noHdr_ok {α : Type} (a : α) : NoHdr (Except.ok (ε := PErr) a) := by
  intro e he
  simp at he

theorem noHdr_error {α : Type} {e : PErr} (h : e.isHeaderErr = false) :
    NoHdr (Except.error (α := α) e) := by
  intro e' he
  cases he
  exact h

theorem noHdr_throw {α : Type} {e : PErr} (h : e.isHeaderErr = false) :
    NoHdr (throw (ε := PErr) (α := α) e) := noHdr_error h

theorem noHdr_ite {α : Type} {c : Prop} [Decidable c] {x y : Except PErr α}
    (hx : NoHdr x) (hy : NoHdr y) : NoHdr (if c then x else y) := by
  split <;> assumption

theorem noHdr_dite {α : Type} {c : Prop} [Decidable c]
    {x : c → Except PErr α} {y : ¬c → Except PErr α}
    (hx : ∀ h, NoHdr (x h)) (hy : ∀ h, NoHdr (y h)) :
    NoHdr (dite c x y) := by
  split
  · exact hx _
  · exact hy _

theorem noHdr_decode_uint8 (b : Buf) (loc : Nat) : NoHdr (decode_uint8 b loc) := by
  unfold decode_uint8
  exact noHdr_ite (noHdr_ok _) (noHdr_error rfl)

theorem noHdr_decode_int8 (b : Buf) (loc : Nat) : NoHdr (decode_int8 b loc) := by
  unfold decode_int8
  exact noHdr_ite (noHdr_ok _) (noHdr_error rfl)

theorem noHdr_decode_uint16 (b : Buf) (loc : Nat) : NoHdr (decode_uint16 b loc) := by
  unfold decode_uint16
  exact noHdr_ite (noHdr_ok _) (noHdr_error rfl)

theorem noHdr_decode_int16 (b : Buf) (loc : Nat) : NoHdr (decode_int16 b loc) := by
  unfold decode_int16
  exact noHdr_ite (noHdr_ok _) (noHdr_error rfl)

theorem noHdr_decode_uint32 (b : Buf) (loc : Nat) : NoHdr (decode_uint32 b loc) := by
  unfold decode_uint32
  exact noHdr_ite (noHdr_ok _) (noHdr_error rfl)

theorem noHdr_decode_pointer (b : Buf) (loc : Nat) : NoHdr (decode_pointer b loc) := by
  unfold decode_pointer
  exact noHdr_ite (noHdr_ok _) (noHdr_error rfl)

theorem noHdr_decode_boolean (b : Buf) (loc : Nat) : NoHdr (decode_boolean b loc) := by
  unfold decode_boolean
  exact noHdr_ite (noHdr_ok _) (noHdr_error rfl)

theorem noHdr_decode_char (b : Buf) (loc : Nat) : NoHdr (decode_char b loc) := by
  unfold decode_char
  exact noHdr_ite (noHdr_ok _) (noHdr_error rfl)

theorem noHdr_decode_string (b : Buf) (loc max_len : Nat) :
    NoHdr (decode_string b loc max_len) := by
  unfold decode_string
  exact noHdr_ite (noHdr_ite (noHdr_ok _) (noHdr_error rfl)) (noHdr_error rfl)

theorem noHdr_decode_intfloat1 (b : Buf) (loc : Nat) : NoHdr (decode_intfloat1 b loc) := by
  unfold decode_intfloat1
  exact noHdr_ite (noHdr_ok _) (noHdr_error rfl)

theorem noHdr_decode_intfloat2 (b : Buf) (loc : Nat) : NoHdr (decode_intfloat2 b loc) := by
  unfold decode_intfloat2
  exact noHdr_ite (noHdr_ok _) (noHdr_error rfl)

theorem noHdr_decode_intfloat2long (b : Buf) (loc : Nat) :
    NoHdr (decode_intfloat2long b loc) := by
  unfold decode_intfloat2long
  exact noHdr_ite (noHdr_ok _) (noHdr_error rfl)

theorem noHdr_decode_intfloat4 (b : Buf) (loc : Nat) : NoHdr (decode_intfloat4 b loc) := by
  unfold decode_intfloat4
  exact noHdr_ite (noHdr_ok _) (noHdr_error rfl)

theorem noHdr_mkDatetime (y m d hh mm ss : Nat) : NoHdr (mkDatetime y m d hh mm ss) := by
  unfold mkDatetime
  exact noHdr_ite (noHdr_error rfl) (noHdr_ite (noHdr_error rfl) (noHdr_ite
    (noHdr_error rfl) (noHdr_ite (noHdr_error rfl) (noHdr_ite (noHdr_error rfl)
      (noHdr_ite (noHdr_error rfl) (noHdr_ok _))))))

theorem noHdr_decode_date (b : Buf) (loc : Nat) : NoHdr (decode_date b loc) := by
  unfold decode_date
  apply noHdr_bind (noHdr_decode_uint32 b loc)
  rintro ⟨dt, l⟩
  apply noHdr_bind (noHdr_mkDatetime _ _ _ _ _ _)
  intro d
  exact noHdr_pure _

theorem noHdr_decode_real48 (b : Buf) (loc : Nat) : NoHdr (decode_real48 b loc) := by
  unfold decode_real48
  rcases pySlice b loc (loc + 6) with _ | ⟨e0, _ | ⟨m0, mrest⟩⟩
  · exact noHdr_error rfl
  · exact noHdr_error rfl
  · exact noHdr_ite (noHdr_ok _) (noHdr_ok _)

theorem noHdr_pyDecode (bs : List Nat) : NoHdr (pyDecode bs) := by
  unfold pyDecode
  exact noHdr_ite (noHdr_ok _) (noHdr_error rfl)

theorem NoHdr.elim {α : Type} {x : Except PErr α} (h : NoHdr x) {e : PErr}
    (he : x = .error e) : e.isHeaderErr = false :=
  h e he

attribute [irreducible] NoHdr

theorem noHdr_parse_mp_struct (b : Buf) (loc : Nat) : NoHdr (parse_mp_struct b loc) := by
  unfold parse_mp_struct
  repeat first
    | apply noHdr_decode_intfloat2
    | apply noHdr_decode_uint8
    | exact noHdr_pure _
    | exact noHdr_ok _
    | exact noHdr_error rfl
    | apply noHdr_bind
    | rintro ⟨x, l⟩

theorem noHdr_parse_mp_pigmentation (b : Buf) (loc : Nat) :
    NoHdr (parse_mp_pigmentation_structure b loc) := by
  unfold parse_mp_pigmentation_structure
  repeat first
    | apply noHdr_decode_intfloat2
    | apply noHdr_decode_uint8
    | exact noHdr_pure _
    | exact noHdr_ok _
    | exact noHdr_error rfl
    | apply noHdr_bind
    | rintro ⟨x, l⟩

theorem noHdr_parse_strat_structure (b : Buf) (loc : Nat) :
    NoHdr (parse_strat_structure b loc) := by
  unfold parse_strat_structure
  repeat first
    | apply noHdr_decode_string
    | apply noHdr_decode_intfloat2
    | apply noHdr_decode_intfloat4
    | apply noHdr_decode_uint8
    | apply noHdr_decode_uint16
    | apply noHdr_decode_char
    | apply noHdr_decode_real48
    | apply noHdr_parse_mp_pigmentation
    | exact noHdr_pure _
    | exact noHdr_ok _
    | exact noHdr_error rfl
    | apply noHdr_bind
    | rintro ⟨x, l⟩

theorem noHdr_parse_ranking (b : Buf) (loc : Nat) : NoHdr (parse_ranking b loc) := by
  unfold parse_ranking
  repeat first
    | apply noHdr_decode_uint16
    | apply noHdr_decode_uint8
    | exact noHdr_pure _
    | exact noHdr_ok _
    | exact noHdr_error rfl
    | apply noHdr_bind
    | rintro ⟨x, l⟩

theorem noHdr_parse_player_struct (b : Buf) (loc : Nat) :
    NoHdr (parse_player_struct b loc) := by
  unfold parse_player_struct
  repeat first
    | apply noHdr_decode_string
    | apply noHdr_decode_intfloat2
    | apply noHdr_parse_mp_struct
    | apply noHdr_decode_uint16
    | apply noHdr_decode_char
    | apply noHdr_pyDecode
    | exact noHdr_pure _
    | exact noHdr_ok _
    | exact noHdr_error rfl
    | apply noHdr_bind
    | rintro ⟨x, l⟩
    | intro x

theorem noHdr_parse_memo_structure (b : Buf) (loc : Nat) :
    NoHdr (parse_memo_structure b loc) := by
  unfold parse_memo_structure
  repeat first
    | apply noHdr_decode_int16
    | apply noHdr_decode_uint16
    | exact noHdr_pure _
    | exact noHdr_ok _
    | exact noHdr_throw rfl
    | exact noHdr_error rfl
    | apply noHdr_ite
    | apply noHdr_bind
    | rintro ⟨x, l⟩
    | intro x

theorem noHdr_parse_note_structure (b : Buf) (loc : Nat) :
    NoHdr (parse_note_structure b loc) := by
  unfold parse_note_structure
  repeat first
    | apply noHdr_decode_int16
    | apply noHdr_decode_uint16
    | exact noHdr_pure _
    | exact noHdr_ok _
    | exact noHdr_throw rfl
    | exact noHdr_error rfl
    | apply noHdr_ite
    | apply noHdr_bind
    | rintro ⟨x, l⟩
    | intro x

theorem noHdr_mitchQuadLoop (b : Buf) :
    ∀ k loc acc, NoHdr (mitchQuadLoop b k loc acc) := by
  intro k
  induction k with
  | zero => intro loc acc; exact noHdr_ok _
  | succ n ih =>
    intro loc acc
    unfold mitchQuadLoop
    repeat first
      | apply noHdr_decode_uint8
      | exact noHdr_ok _
      | exact noHdr_error rfl
      | exact ih _ _
      | apply noHdr_bind
      | rintro ⟨x, l⟩

theorem noHdr_parse_mitchell_pairs (b : Buf) (loc : Nat) :
    NoHdr (parse_mitchell_pairs b loc) := by
  unfold parse_mitchell_pairs
  repeat first
    | apply noHdr_mitchQuadLoop
    | exact noHdr_pure _
    | exact noHdr_ok _
    | exact noHdr_error rfl
    | apply noHdr_bind
    | rintro ⟨x, l⟩

theorem noHdr_parse_howell_pairs (b : Buf) (loc : Nat) :
    NoHdr (parse_howell_pairs b loc) :=
  noHdr_error rfl

theorem noHdr_parse_round_robin_struct (b : Buf) (loc : Nat) :
    NoHdr (parse_round_robin_struct b loc) := by
  unfold parse_round_robin_struct
  repeat first
    | apply noHdr_decode_boolean
    | apply noHdr_decode_int8
    | apply noHdr_decode_string
    | apply noHdr_decode_char
    | apply noHdr_decode_int16
    | exact noHdr_ok _
    | exact noHdr_throw rfl
    | exact noHdr_error rfl
    | apply noHdr_bind
    | rintro ⟨x, l⟩

theorem noHdr_parse_team_match_index (b : Buf) (loc : Nat) :
    NoHdr (parse_team_match_index b loc) := by
  unfold parse_team_match_index
  repeat first
    | apply noHdr_decode_int16
    | apply noHdr_decode_uint16
    | apply noHdr_decode_pointer
    | apply noHdr_decode_uint8
    | apply noHdr_decode_string
    | apply noHdr_parse_round_robin_struct
    | exact noHdr_pure _
    | exact noHdr_ok _
    | exact noHdr_throw rfl
    | exact noHdr_error rfl
    | apply noHdr_ite
    | apply noHdr_bind
    | rintro ⟨x, l⟩
    | intro x

theorem noHdr_boardEntryLoop (b : Buf) :
    ∀ k loc acc, NoHdr (boardEntryLoop b k loc acc) := by
  intro k
  induction k with
  | zero => intro loc acc; exact noHdr_ok _
  | succ n ih =>
    intro loc acc
    unfold boardEntryLoop
    repeat first
      | apply noHdr_decode_uint8
      | apply noHdr_decode_uint16
      | apply noHdr_decode_intfloat2long
      | exact noHdr_ok _
      | exact noHdr_error rfl
      | exact ih _ _
      | apply noHdr_bind
      | rintro ⟨x, l⟩

theorem noHdr_parse_board2_results (b : Buf) (loc : Nat) :
    NoHdr (parse_board2_results b loc) := by
  unfold parse_board2_results
  repeat first
    | apply noHdr_decode_int16
    | apply noHdr_decode_uint16
    | apply noHdr_decode_uint8
    | apply noHdr_boardEntryLoop
    | exact noHdr_pure _
    | exact noHdr_ok _
    | exact noHdr_throw rfl
    | exact noHdr_error rfl
    | apply noHdr_ite
    | apply noHdr_bind
    | rintro ⟨x, l⟩
    | intro x

theorem noHdr_boardsLoop (b : Buf) :
    ∀ k loc acc, NoHdr (boardsLoop b k loc acc) := by
  intro k
  induction k with
  | zero => intro loc acc; exact noHdr_ok _
  | succ n ih =>
    intro loc acc
    unfold boardsLoop
    repeat first
      | apply noHdr_decode_uint8
      | apply noHdr_decode_boolean
      | apply noHdr_decode_uint16
      | apply noHdr_decode_pointer
      | apply noHdr_parse_board2_results
      | exact noHdr_ok _
      | exact noHdr_error rfl
      | exact ih _ _
      | apply noHdr_bind
      | rintro ⟨x, l⟩
      | intro x

theorem noHdr_parse_boards_index (b : Buf) (loc : Nat) :
    NoHdr (parse_boards_index b loc) := by
  unfold parse_boards_index
  repeat first
    | apply noHdr_decode_int16
    | apply noHdr_decode_uint16
    | apply noHdr_decode_string
    | apply noHdr_boardsLoop
    | exact noHdr_pure _
    | exact noHdr_ok _
    | exact noHdr_error rfl
    | apply noHdr_ite
    | apply noHdr_bind
    | rintro ⟨x, l⟩
    | intro x

theorem noHdr_parse_pair_struct (b : Buf) (loc : Nat) :
    NoHdr (parse_pair_struct b loc) := by
  unfold parse_pair_struct
  repeat first
    | apply noHdr_decode_int16
    | apply noHdr_decode_uint16
    | apply noHdr_decode_intfloat2long
    | apply noHdr_decode_intfloat2
    | apply noHdr_decode_uint8
    | apply noHdr_decode_uint32
    | apply noHdr_decode_string
    | apply noHdr_decode_char
    | apply noHdr_parse_mp_struct
    | apply noHdr_parse_ranking
    | apply noHdr_parse_player_struct
    | exact noHdr_pure _
    | exact noHdr_ok _
    | exact noHdr_error rfl
    | apply noHdr_bind
    | rintro ⟨x, l⟩

theorem noHdr_pairLoop (b : Buf) :
    ∀ k loc acc, NoHdr (pairLoop b k loc acc) := by
  intro k
  induction k with
  | zero => intro loc acc; exact noHdr_ok _
  | succ n ih =>
    intro loc acc
    unfold pairLoop
    repeat first
      | apply noHdr_decode_string
      | apply noHdr_decode_pointer
      | apply noHdr_parse_pair_struct
      | exact noHdr_ok _
      | exact noHdr_error rfl
      | exact ih _ _
      | apply noHdr_bind
      | rintro ⟨x, l⟩
      | intro x

theorem noHdr_parse_pair_index (b : Buf) (loc : Nat) :
    NoHdr (parse_pair_index b loc) := by
  unfold parse_pair_index
  repeat first
    | apply noHdr_decode_int16
    | apply noHdr_decode_uint16
    | apply noHdr_decode_pointer
    | apply noHdr_pairLoop
    | exact noHdr_pure _
    | exact noHdr_ok _
    | exact noHdr_throw rfl
    | exact noHdr_error rfl
    | apply noHdr_ite
    | apply noHdr_bind
    | rintro ⟨x, l⟩
    | intro x

theorem noHdr_parse_section_strat (b : Buf) (loc : Nat) :
    NoHdr (parse_section_strat b loc) := by
  unfold parse_section_strat
  repeat first
    | apply noHdr_decode_int16
    | apply noHdr_decode_uint16
    | apply noHdr_decode_uint8
    | exact noHdr_pure _
    | exact noHdr_ok _
    | exact noHdr_error rfl
    | apply noHdr_bind
    | rintro ⟨x, l⟩

section

attribute [local irreducible] decode_uint8 decode_int8 decode_uint16 decode_int16
  decode_uint32 decode_pointer decode_boolean decode_char decode_string
  decode_intfloat1 decode_intfloat2 decode_intfloat2long decode_intfloat4
  decode_date decode_real48 pyDecode mkDatetime
  parse_mp_pigmentation_structure parse_strat_structure parse_mp_struct
  parse_ranking parse_player_struct parse_memo_structure parse_note_structure
  mitchQuadLoop parse_mitchell_pairs parse_howell_pairs parse_round_robin_struct
  parse_team_match_index boardEntryLoop parse_board2_results boardsLoop
  parse_boards_index parse_pair_struct pairLoop parse_pair_index
  parse_section_strat

theorem noHdr_parse_section_details (b : Buf) (loc : Nat) :
    NoHdr (parse_section_details b loc) := by
  unfold parse_section_details
  iterate 600
    first
      | apply noHdr_decode_int16
      | apply noHdr_decode_uint16
      | apply noHdr_decode_uint8
      | apply noHdr_decode_pointer
      | apply noHdr_decode_boolean
      | apply noHdr_decode_intfloat1
      | apply noHdr_decode_intfloat2
      | apply noHdr_decode_string
      | apply noHdr_decode_date
      | apply noHdr_parse_player_struct
      | apply noHdr_parse_pair_index
      | apply noHdr_parse_section_strat
      | apply noHdr_parse_memo_structure
      | apply noHdr_parse_howell_pairs
      | apply noHdr_parse_mitchell_pairs
      | apply noHdr_parse_team_match_index
      | exact noHdr_pure _
      | exact noHdr_ok _
      | exact noHdr_throw rfl
      | exact noHdr_error rfl
      | apply noHdr_ite
      | apply noHdr_bind
      | intro x
      | obtain ⟨x, l⟩ := x
      | obtain ⟨x, l⟩ := l
      | skip

theorem noHdr_parse_section_summary (b : Buf) (loc : Nat) :
    NoHdr (parse_section_summary b loc) := by
  unfold parse_section_summary
  iterate 600
    first
      | apply noHdr_decode_uint8
      | apply noHdr_decode_uint16
      | apply noHdr_decode_pointer
      | apply noHdr_decode_string
      | apply noHdr_parse_section_details
      | apply noHdr_parse_boards_index
      | exact noHdr_pure _
      | exact noHdr_ok _
      | exact noHdr_error rfl
      | apply noHdr_ite
      | apply noHdr_bind
      | intro x
      | obtain ⟨x, l⟩ := x
      | obtain ⟨x, l⟩ := l
      | skip

theorem noHdr_parse_event_details (b : Buf) (loc : Nat) :
    NoHdr (parse_event_details b loc) := by
  unfold parse_event_details
  iterate 600
    first
      | apply noHdr_decode_int16
      | apply noHdr_decode_int8
      | apply noHdr_decode_uint16
      | apply noHdr_decode_uint8
      | apply noHdr_decode_uint32
      | apply noHdr_decode_pointer
      | apply noHdr_decode_boolean
      | apply noHdr_decode_intfloat1
      | apply noHdr_decode_intfloat2
      | apply noHdr_decode_string
      | apply noHdr_decode_date
      | apply noHdr_decode_real48
      | apply noHdr_parse_strat_structure
      | apply noHdr_parse_memo_structure
      | exact noHdr_pure _
      | exact noHdr_ok _
      | exact noHdr_error rfl
      | apply noHdr_ite
      | apply noHdr_bind
      | intro x
      | obtain ⟨x, l⟩ := x
      | obtain ⟨x, l⟩ := l
      | skip

end

theorem noHdr_eventLoop (b : Buf) :
    ∀ k loc ev ev' e, eventLoop b k loc ev = (ev', .error e) →
      e.isHeaderErr = false := by
  intro k
  induction k with
  | zero =>
    intro loc ev ev' e h
    simp [eventLoop] at h
  | succ n ih =>
    intro loc ev ev' e h
    unfold eventLoop at h
    split at h
    next e0 heq =>
      simp only [Prod.mk.injEq, Except.error.injEq] at h
      exact h.2 ▸ (noHdr_decode_pointer b loc).elim heq
    next p l heq =>
      split at h
      next hp =>
        split at h
        next e0 heq2 =>
          simp only [Prod.mk.injEq, Except.error.injEq] at h
          exact h.2 ▸ (noHdr_parse_event_details b p).elim heq2
        next d heq2 =>
          exact ih _ _ _ _ h
      next hp =>
        exact ih _ _ _ _ h

theorem noHdr_setEventEntry (ev : List EventEntry) (i : Nat)
    (f : EventEntry → EventEntry) : NoHdr (setEventEntry ev i f) := by
  unfold setEventEntry
  apply noHdr_dite
  · intro h; exact noHdr_ok _
  · intro h; exact noHdr_error rfl

theorem noHdr_eventFieldLoop (b : Buf) (upd : Nat → EventEntry → EventEntry) :
    ∀ k i loc ev ev' e, eventFieldLoop b upd k i loc ev = (ev', .error e) →
      e.isHeaderErr = false := by
  intro k
  induction k with
  | zero =>
    intro i loc ev ev' e h
    simp [eventFieldLoop] at h
  | succ n ih =>
    intro i loc ev ev' e h
    unfold eventFieldLoop at h
    split at h
    next e0 heq =>
      simp only [Prod.mk.injEq, Except.error.injEq] at h
      exact h.2 ▸ (noHdr_decode_uint8 b loc).elim heq
    next cur l heq =>
      split at h
      next e0 heq2 =>
        simp only [Prod.mk.injEq, Except.error.injEq] at h
        exact h.2 ▸ (noHdr_setEventEntry ev i _).elim heq2
      next ev2 heq2 =>
        exact ih _ _ _ _ _ h

theorem noHdr_sectionLoop (b : Buf) :
    ∀ k loc secs secs' e, sectionLoop b k loc secs = (secs', .error e) →
      e.isHeaderErr = false := by
  intro k
  induction k with
  | zero =>
    intro loc secs secs' e h
    simp [sectionLoop] at h
  | succ n ih =>
    intro loc secs secs' e h
    unfold sectionLoop at h
    split at h
    next e0 heq =>
      simp only [Prod.mk.injEq, Except.error.injEq] at h
      exact h.2 ▸ (noHdr_parse_section_summary b loc).elim heq
    next s0 l heq =>
      exact ih _ _ _ _ h

section

attribute [local irreducible] decode_uint8 decode_int8 decode_uint16 decode_int16
  decode_uint32 decode_pointer decode_boolean decode_char decode_string
  decode_intfloat1 decode_intfloat2 decode_intfloat2long decode_intfloat4
  decode_date decode_real48 pyDecode mkDatetime
  parse_memo_structure parse_note_structure parse_event_details
  parse_section_summary eventLoop eventFieldLoop sectionLoop setEventEntry

theorem noHdr_parse_master_body (b : Buf) (s : State) (loc : Nat) :
    ∀ s' e, parse_master_body b s loc = (s', .error e) → e.isHeaderErr = false := by
  intro s' e h
  unfold parse_master_body at h
  repeat any_goals split at h
  all_goals first
    | (have h2 := congrArg Prod.snd h; simp at h2; done)
    | (have h2 := congrArg Prod.snd h; rw [Except.error.injEq] at h2; subst h2;
       first
         | exact (noHdr_decode_pointer _ _).elim (by assumption)
         | exact (noHdr_decode_boolean _ _).elim (by assumption)
         | exact (noHdr_decode_intfloat2 _ _).elim (by assumption)
         | exact (noHdr_decode_date _ _).elim (by assumption)
         | exact (noHdr_decode_string _ _ _).elim (by assumption)
         | exact (noHdr_decode_uint8 _ _).elim (by assumption)
         | exact (noHdr_parse_memo_structure _ _).elim (by assumption)
         | exact (noHdr_parse_note_structure _ _).elim (by assumption)
         | exact noHdr_eventLoop _ _ _ _ _ _ (by assumption)
         | exact noHdr_eventFieldLoop _ _ _ _ _ _ _ _ (by assumption)
         | exact noHdr_sectionLoop _ _ _ _ _ _ (by assumption))

end

theorem bytesAt_length (b : Buf) : ∀ n start, (bytesAt b start n).length = n := by
  intro n
  induction n with
  | zero => intro start; rfl
  | succ k ih => intro start; simp [bytesAt, ih]

theorem eventLoop_ok_length (b : Buf) :
    ∀ k loc ev ev' l, eventLoop b k loc ev = (ev', .ok l) →
      ev'.length = ev.length + k := by
  intro k
  induction k with
  | zero =>
    intro loc ev ev' l h
    simp [eventLoop] at h
    simp [h.1]
  | succ n ih =>
    intro loc ev ev' l h
    unfold eventLoop at h
    split at h
    · simp at h
    next p l1 heq =>
      split at h
      next hp =>
        split at h
        · simp at h
        next d heq2 =>
          have := ih _ _ _ _ h
          simp at this
          omega
      next hp =>
        have := ih _ _ _ _ h
        simp at this
        omega

theorem eventFieldLoop_ok_length (b : Buf) (upd : Nat → EventEntry → EventEntry) :
    ∀ k i loc ev ev' l, eventFieldLoop b upd k i loc ev = (ev', .ok l) →
      ev'.length = ev.length := by
  intro k
  induction k with
  | zero =>
    intro i loc ev ev' l h
    simp [eventFieldLoop] at h
    simp [h.1]
  | succ n ih =>
    intro i loc ev ev' l h
    unfold eventFieldLoop at h
    split at h
    · simp at h
    next cur l1 heq =>
      split at h
      · simp at h
      next ev2 heq2 =>
        have h3 := ih _ _ _ _ _ h
        unfold setEventEntry at heq2
        split at heq2
        · simp only [Except.ok.injEq] at heq2
          rw [h3, ← heq2, List.length_set]
        · simp at heq2

theorem sectionLoop_ok_length (b : Buf) :
    ∀ k loc secs secs' l, sectionLoop b k loc secs = (secs', .ok l) →
      secs'.length = secs.length + k := by
  intro k
  induction k with
  | zero =>
    intro loc secs secs' l h
    simp [sectionLoop] at h
    simp [h.1]
  | succ n ih =>
    intro loc secs secs' l h
    unfold sectionLoop at h
    split at h
    · simp at h
    next s0 l1 heq =>
      have := ih _ _ _ _ h
      simp at this
      omega

theorem master_parse_ok_shape (b : Buf) (s : State) :
    ∀ s' l, parse_master_table b s = (s', .ok l) →
      s'.events.length = s.events.length + 50 ∧
      s'.sections.length = s.sections.length + 100 ∧
      ∃ mt : MasterTable, s'.header = some mt ∧
        mt.bridgemate_import = none ∧ mt.global_options = none := by
  intro s' l h
  unfold parse_master_table at h
  split at h
  next e hq => simp at h
  next loc hq =>
    unfold parse_master_body at h
    split at h
    next x e hq1 => simp at h
    next x p l1 hq1 =>
     split at h
     next x e hq2 => simp at h
     next x q l2 hq2 =>
      split at h
      next x ev e hqEv => simp at h
      next x ev l3 hqEv =>
       split at h
       next x ev2 e hqT => simp at h
       next x ev2 l4 hqT =>
        split at h
        next x ev3 e hqS => simp at h
        next x ev3 l5 hqS =>
         split at h
         next x secs e hqSec => simp at h
         next x secs l6 hqSec =>
          split at h
          next x e hq3 => simp at h
          next x mp l7 hq3 =>
           split at h
           next x e hq4 => simp at h
           next x memo hq4 =>
            split at h
            next x e hq5 => simp at h
            next x cp l8 hq5 =>
             split at h
             next x e hq6 => simp at h
             next x sv l9 hq6 =>
              split at h
              next x e hq7 => simp at h
              next x cd l10 hq7 =>
               split at h
               next x e hq8 => simp at h
               next x mv l11 hq8 =>
                split at h
                next x e hq9 => simp at h
                next x np l12 hq9 =>
                 split at h
                 next x e hq10 => simp at h
                 next x note hq10 =>
                  split at h
                  next x e hq11 => simp at h
                  next x ig1 l13 hq11 =>
                   split at h
                   next x e hq12 => simp at h
                   next x imp l14 hq12 =>
                    split at h
                    next x e hq13 => simp at h
                    next x ig2 l15 hq13 =>
                     split at h
                     next x e hq14 => simp at h
                     next x go l16 hq14 =>
                      split at h
                      next x e hq15 => simp at h
                      next x ig3 l17 hq15 =>
                       split at h
                       next x e hq16 => simp at h
                       next x bm l18 hq16 =>
                        have hfst := congrArg Prod.fst h
                        simp only [Prod.fst] at hfst
                        subst hfst
                        have e1 := eventLoop_ok_length b 50 l2 s.events ev l3 hqEv
                        have e2 := eventFieldLoop_ok_length b _ 50 0 l3 ev ev2 l4 hqT
                        have e3 := eventFieldLoop_ok_length b _ 50 0 l4 ev2 ev3 l5 hqS
                        have s1 := sectionLoop_ok_length b 100 l5 s.sections secs l6 hqSec
                        refine ⟨by simp; omega, by simp; omega, ?_⟩
                        exact ⟨MasterTable.init sv memo note mv cd bm go, rfl, rfl, rfl⟩

theorem decode_uint8_ok (b : Buf) (loc : Nat) (h : loc + 1 ≤ b.size) :
    decode_uint8 b loc = .ok (b.byte loc, loc + 1) := by
  unfold decode_uint8; rw [if_pos h]

theorem decode_uint16_ok (b : Buf) (loc : Nat) (h : loc + 2 ≤ b.size) :
    decode_uint16 b loc = .ok (leU16 b loc, loc + 2) := by
  unfold decode_uint16; rw [if_pos h]

theorem decode_int16_ok (b : Buf) (loc : Nat) (h : loc + 2 ≤ b.size) :
    decode_int16 b loc = .ok (sgn16 (leU16 b loc), loc + 2) := by
  unfold decode_int16; rw [if_pos h]

theorem decode_uint32_ok (b : Buf) (loc : Nat) (h : loc + 4 ≤ b.size) :
    decode_uint32 b loc = .ok (leU32 b loc, loc + 4) := by
  unfold decode_uint32; rw [if_pos h]

theorem decode_pointer_ok (b : Buf) (loc : Nat) (h : loc + 4 ≤ b.size) :
    decode_pointer b loc = .ok (leU32 b loc, loc + 4) := by
  unfold decode_pointer; rw [if_pos h]

theorem decode_string_ok (b : Buf) (loc max_len : Nat) (h1 : loc + 1 ≤ b.size)
    (h2 : loc + 1 + b.byte loc ≤ b.size) :
    decode_string b loc max_len =
      .ok (bytesAt b (loc + 1) (b.byte loc), loc + max_len + 1) := by
  unfold decode_string
  rw [if_pos h1, if_pos h2]

theorem byte_lt_256 (b : Buf) (i : Nat) : b.byte i < 256 :=
  Nat.mod_lt _ (by norm_num)

/-- The identifier comparison of line 90: the length-prefixed string read at
offset 2 equals `b'AC3'` exactly when byte 2 is 3 and bytes 3–5 spell `AC3`. -/
theorem ac3_id_eq_iff (b : Buf) :
    bytesAt b 3 (b.byte 2) = [65, 67, 51] ↔ hdrIdOk b := by
  unfold hdrIdOk
  constructor
  · intro h
    have hl := congrArg List.length h
    rw [bytesAt_length] at hl
    simp at hl
    rw [hl] at h
    simp [bytesAt] at h
    exact ⟨hl, h.1, h.2.1, h.2.2⟩
  · rintro ⟨h2, h3, h4, h5⟩
    rw [h2]
    simp [bytesAt, h3, h4, h5]

theorem hdr_spec_size (b : Buf) (h : ¬ hdrSizeOk b) :
    master_header_checks b = .error .fileTooSmall := by
  unfold master_header_checks
  unfold hdrSizeOk at h
  simp [show b.size < 0x0a14 from by omega, throw, throwThe, MonadExceptOf.throw,
    Bind.bind, Except.bind]

theorem hdr_spec_len (b : Buf) (h : hdrSizeOk b) (h2 : ¬ hdrLenOk b) :
    master_header_checks b = .error (.tableLengthIncorrect (sgn16 (leU16 b 0))) := by
  unfold master_header_checks
  unfold hdrSizeOk at h
  unfold hdrLenOk at h2
  simp [show ¬ (b.size < 0x0a14) from by omega, h2, decode_int16_ok b 0 (by omega),
    throw, throwThe, MonadExceptOf.throw, Bind.bind, Except.bind, pure, Except.pure]

theorem hdr_spec_id (b : Buf) (h : hdrSizeOk b) (h2 : hdrLenOk b) (h3 : ¬ hdrIdOk b) :
    master_header_checks b = .error .typeError := by
  unfold master_header_checks
  unfold hdrSizeOk at h
  unfold hdrLenOk at h2
  simp [show ¬ (b.size < 0x0a14) from by omega, h2, decode_int16_ok b 0 (by omega),
    decode_string_ok b 2 3 (by omega) (by have := byte_lt_256 b 2; omega),
    show bytesAt b 3 (b.byte 2) ≠ [65, 67, 51] from fun hh => h3 ((ac3_id_eq_iff b).mp hh),
    throw, throwThe, MonadExceptOf.throw, Bind.bind, Except.bind, pure, Except.pure]

theorem hdr_spec_flen (b : Buf) (h : hdrSizeOk b) (h2 : hdrLenOk b) (h3 : hdrIdOk b)
    (h4 : ¬ hdrFileLenOk b) :
    master_header_checks b = .error (.fileLengthMismatch (leU32 b 6) b.size) := by
  unfold master_header_checks
  unfold hdrSizeOk at h
  unfold hdrLenOk at h2
  unfold hdrFileLenOk at h4
  simp [show ¬ (b.size < 0x0a14) from by omega, h2, h4, decode_int16_ok b 0 (by omega),
    decode_string_ok b 2 3 (by omega) (by have := byte_lt_256 b 2; omega),
    (ac3_id_eq_iff b).mpr h3, decode_uint32_ok b 6 (by omega),
    throw, throwThe, MonadExceptOf.throw, Bind.bind, Except.bind, pure, Except.pure]

theorem hdr_spec_ok (b : Buf) (h : hdrSizeOk b) (h2 : hdrLenOk b) (h3 : hdrIdOk b)
    (h4 : hdrFileLenOk b) : master_header_checks b = .ok 10 := by
  unfold master_header_checks
  unfold hdrSizeOk at h
  unfold hdrLenOk at h2
  unfold hdrFileLenOk at h4
  simp [show ¬ (b.size < 0x0a14) from by omega, h2, h4, decode_int16_ok b 0 (by omega),
    decode_string_ok b 2 3 (by omega) (by have := byte_lt_256 b 2; omega),
    (ac3_id_eq_iff b).mpr h3, decode_uint32_ok b 6 (by omega),
    throw, throwThe, MonadExceptOf.throw, Bind.bind, Except.bind, pure, Except.pure]

theorem noHdr_body_snd (b : Buf) (s : State) (loc : Nat) :
    ∀ e, (parse_master_body b s loc).2 = .error e → e.isHeaderErr = false := by
  intro e hv
  rcases hb : parse_master_body b s loc with ⟨s2, r⟩
  rw [hb] at hv
  simp at hv
  subst hv
  exact noHdr_parse_master_body b s loc s2 e hb

/-- C1 (amended): parsing the master table can succeed only when all header
checks pass — the buffer is at least 0x0a14 bytes, the first two bytes read
2578, the identifier field is the length-prefixed string `AC3` (byte 2 is 3,
bytes 3–5 are `A`,`C`,`3`), and the file-length word at offset 6 equals the
buffer size.  Each violated check makes the parse fail with its own error
and an unchanged parser state (no partial record tree), checked in order:
undersized buffer → the "File too small" `ValueError`; table length ≠ 2578 →
the "Table length incorrect" `ValueError` carrying the decoded value —
raised exactly when its condition is violated; identifier mismatch → a
`TypeError` (the raise on line 91 concatenates `str + bytes` while building
the message, so the documented identifier `ValueError` is never raised);
file-length mismatch → the "File length ... do not align" `ValueError`,
raised exactly when its condition is violated (earlier checks passing). -/
theorem c1_header_validation_amended (b : Buf) (s : State) :
    (∀ loc, (parse_master_table b s).2 = .ok loc →
        hdrSizeOk b ∧ hdrLenOk b ∧ hdrIdOk b ∧ hdrFileLenOk b) ∧
    (¬ hdrSizeOk b → parse_master_table b s = (s, .error .fileTooSmall)) ∧
    (hdrSizeOk b → ¬ hdrLenOk b →
        parse_master_table b s = (s, .error (.tableLengthIncorrect (sgn16 (leU16 b 0))))) ∧
    (hdrSizeOk b → hdrLenOk b → ¬ hdrIdOk b →
        parse_master_table b s = (s, .error .typeError)) ∧
    (hdrSizeOk b → hdrLenOk b → hdrIdOk b → ¬ hdrFileLenOk b →
        parse_master_table b s = (s, .error (.fileLengthMismatch (leU32 b 6) b.size))) ∧
    (∀ v, (parse_master_table b s).2 = .error (.tableLengthIncorrect v) →
        hdrSizeOk b ∧ ¬ hdrLenOk b ∧ v = sgn16 (leU16 b 0)) ∧
    (∀ g a, (parse_master_table b s).2 = .error (.fileLengthMismatch g a) →
        hdrSizeOk b ∧ hdrLenOk b ∧ hdrIdOk b ∧ ¬ hdrFileLenOk b ∧
          g = leU32 b 6 ∧ a = b.size) ∧
    ((parse_master_table b s).2 = .error .fileTooSmall → ¬ hdrSizeOk b) := by
  have hpm : ∀ e, master_header_checks b = .error e →
      parse_master_table b s = (s, .error e) := by
    intro e he; unfold parse_master_table; rw [he]
  have hpo : ∀ loc, master_header_checks b = .ok loc →
      parse_master_table b s = parse_master_body b s loc := by
    intro loc hl; unfold parse_master_table; rw [hl]
  refine ⟨?_, ?_, ?_, ?_, ?_, ?_, ?_, ?_⟩
  · intro loc hok
    by_cases h1 : hdrSizeOk b
    · by_cases h2 : hdrLenOk b
      · by_cases h3 : hdrIdOk b
        · by_cases h4 : hdrFileLenOk b
          · exact ⟨h1, h2, h3, h4⟩
          · rw [hpm _ (hdr_spec_flen b h1 h2 h3 h4)] at hok; simp at hok
        · rw [hpm _ (hdr_spec_id b h1 h2 h3)] at hok; simp at hok
      · rw [hpm _ (hdr_spec_len b h1 h2)] at hok; simp at hok
    · rw [hpm _ (hdr_spec_size b h1)] at hok; simp at hok
  · intro h1; exact hpm _ (hdr_spec_size b h1)
  · intro h1 h2; exact hpm _ (hdr_spec_len b h1 h2)
  · intro h1 h2 h3; exact hpm _ (hdr_spec_id b h1 h2 h3)
  · intro h1 h2 h3 h4; exact hpm _ (hdr_spec_flen b h1 h2 h3 h4)
  · intro v hv
    by_cases h1 : hdrSizeOk b
    · by_cases h2 : hdrLenOk b
      · by_cases h3 : hdrIdOk b
        · by_cases h4 : hdrFileLenOk b
          · rw [hpo _ (hdr_spec_ok b h1 h2 h3 h4)] at hv
            have := noHdr_body_snd b s 10 _ hv
            simp [PErr.isHeaderErr] at this
          · rw [hpm _ (hdr_spec_flen b h1 h2 h3 h4)] at hv; simp at hv
        · rw [hpm _ (hdr_spec_id b h1 h2 h3)] at hv; simp at hv
      · rw [hpm _ (hdr_spec_len b h1 h2)] at hv
        simp at hv
        exact ⟨h1, h2, hv.symm⟩
    · rw [hpm _ (hdr_spec_size b h1)] at hv; simp at hv
  · intro g a hv
    by_cases h1 : hdrSizeOk b
    · by_cases h2 : hdrLenOk b
      · by_cases h3 : hdrIdOk b
        · by_cases h4 : hdrFileLenOk b
          · rw [hpo _ (hdr_spec_ok b h1 h2 h3 h4)] at hv
            have := noHdr_body_snd b s 10 _ hv
            simp [PErr.isHeaderErr] at this
          · rw [hpm _ (hdr_spec_flen b h1 h2 h3 h4)] at hv
            simp at hv
            exact ⟨h1, h2, h3, h4, hv.1.symm, hv.2.symm⟩
        · rw [hpm _ (hdr_spec_id b h1 h2 h3)] at hv; simp at hv
      · rw [hpm _ (hdr_spec_len b h1 h2)] at hv; simp at hv
    · rw [hpm _ (hdr_spec_size b h1)] at hv; simp at hv
  · intro hv
    by_cases h1 : hdrSizeOk b
    · by_cases h2 : hdrLenOk b
      · by_cases h3 : hdrIdOk b
        · by_cases h4 : hdrFileLenOk b
          · rw [hpo _ (hdr_spec_ok b h1 h2 h3 h4)] at hv
            have := noHdr_body_snd b s 10 _ hv
            simp [PErr.isHeaderErr] at this
          · rw [hpm _ (hdr_spec_flen b h1 h2 h3 h4)] at hv; simp at hv
        · rw [hpm _ (hdr_spec_id b h1 h2 h3)] at hv; simp at hv
      · rw [hpm _ (hdr_spec_len b h1 h2)] at hv; simp at hv
    · exact h1

/-- Closed form of `parse_memo_structure` at a nonzero pointer: the declared
length (bytes `loc`, `loc+1`) and memo id (bytes `loc+2`, `loc+3`) are read
but never used; only the bounds checks and the line count at `loc+4` matter. -/
theorem parse_memo_spec (b : Buf) (loc : Nat) (hne : loc ≠ 0) :
    parse_memo_structure b loc =
      if loc + 2 ≤ b.size then
        if loc + 4 ≤ b.size then
          if loc + 6 ≤ b.size then
            if 0 < leU16 b (loc + 4) then .error .typeError else .ok []
          else .error .structError
        else .error .structError
      else .error .structError := by
  by_cases hb1 : loc + 2 ≤ b.size
  · by_cases hb2 : loc + 4 ≤ b.size
    · by_cases hb3 : loc + 6 ≤ b.size
      · by_cases hlc : 0 < leU16 b (loc + 4)
        · simp [parse_memo_structure, hne, decode_int16_ok b loc hb1,
            decode_uint16_ok b (loc + 2) hb2, decode_uint16_ok b (loc + 4) hb3,
            hb1, hb2, hb3, hlc, Bind.bind, Except.bind, throw, throwThe,
            MonadExceptOf.throw, pure, Except.pure]
        · simp [parse_memo_structure, hne, decode_int16_ok b loc hb1,
            decode_uint16_ok b (loc + 2) hb2, decode_uint16_ok b (loc + 4) hb3,
            hb1, hb2, hb3, hlc, Bind.bind, Except.bind, throw, throwThe,
            MonadExceptOf.throw, pure, Except.pure]
      · simp [parse_memo_structure, hne, decode_int16_ok b loc hb1,
          decode_uint16_ok b (loc + 2) hb2, decode_uint16,
          hb1, hb2, hb3, Bind.bind, Except.bind, throw, throwThe,
          MonadExceptOf.throw, pure, Except.pure]
    · simp [parse_memo_structure, hne, decode_int16_ok b loc hb1, decode_uint16,
        hb1, hb2, Bind.bind, Except.bind, throw, throwThe,
        MonadExceptOf.throw, pure, Except.pure]
  · simp [parse_memo_structure, hne, decode_int16,
      hb1, Bind.bind, Except.bind, throw, throwThe,
      MonadExceptOf.throw, pure, Except.pure]

/-- Closed form of `parse_note_structure` at a nonzero pointer: identical
shape to the memo structure. -/
theorem parse_note_spec (b : Buf) (loc : Nat) (hne : loc ≠ 0) :
    parse_note_structure b loc =
      if loc + 2 ≤ b.size then
        if loc + 4 ≤ b.size then
          if loc + 6 ≤ b.size then
            if 0 < leU16 b (loc + 4) then .error .typeError else .ok []
          else .error .structError
        else .error .structError
      else .error .structError := by
  by_cases hb1 : loc + 2 ≤ b.size
  · by_cases hb2 : loc + 4 ≤ b.size
    · by_cases hb3 : loc + 6 ≤ b.size
      · by_cases hlc : 0 < leU16 b (loc + 4)
        · simp [parse_note_structure, hne, decode_int16_ok b loc hb1,
            decode_uint16_ok b (loc + 2) hb2, decode_uint16_ok b (loc + 4) hb3,
            hb1, hb2, hb3, hlc, Bind.bind, Except.bind, throw, throwThe,
            MonadExceptOf.throw, pure, Except.pure]
        · simp [parse_note_structure, hne, decode_int16_ok b loc hb1,
            decode_uint16_ok b (loc + 2) hb2, decode_uint16_ok b (loc + 4) hb3,
            hb1, hb2, hb3, hlc, Bind.bind, Except.bind, throw, throwThe,
            MonadExceptOf.throw, pure, Except.pure]
      · simp [parse_note_structure, hne, decode_int16_ok b loc hb1,
          decode_uint16_ok b (loc + 2) hb2, decode_uint16,
          hb1, hb2, hb3, Bind.bind, Except.bind, throw, throwThe,
          MonadExceptOf.throw, pure, Except.pure]
    · simp [parse_note_structure, hne, decode_int16_ok b loc hb1, decode_uint16,
        hb1, hb2, Bind.bind, Except.bind, throw, throwThe,
        MonadExceptOf.throw, pure, Except.pure]
  · simp [parse_note_structure, hne, decode_int16,
      hb1, Bind.bind, Except.bind, throw, throwThe,
      MonadExceptOf.throw, pure, Except.pure]

set_option maxRecDepth 100000 in
/-- C1 witness: on the minimal well-formed master-table buffer the parse
succeeds, so by the amended theorem all four header conditions hold. -/
theorem c1_header_validation_amended_witness :
    hdrSizeOk minimalBuf ∧ hdrLenOk minimalBuf ∧ hdrIdOk minimalBuf ∧
      hdrFileLenOk minimalBuf :=
  (c1_header_validation_amended minimalBuf State.fresh).1 2580 (by rfl)

set_option maxRecDepth 100000 in
/-- C1 counterexample: flipping the identifier from AC3 to AC2 does not
raise the ValueError naming the identifier mismatch that the spec demands:
line 91 concatenates a str with the raw bytes object, so the parse dies
with a TypeError instead (state unchanged, but the error class is wrong). -/
theorem c1_identifier_mismatch_raises_typeerror :
    parse_master_table c1IdMismatchBuf State.fresh =
      (State.fresh, .error .typeError) := by rfl

/-- C2 (amended): the substructures that DO test for a null pointer —
section details, boards index, memo, note, and team-match index — all
short-circuit on pointer 0 to their empty/absent value without reading a
byte (the result is the same for every buffer). -/
theorem c2_null_pointer_shortcircuit_amended (b : Buf) :
    parse_section_details b 0 = .ok SectionDetails.empty ∧
    parse_boards_index b 0 = .ok none ∧
    parse_memo_structure b 0 = .ok [] ∧
    parse_note_structure b 0 = .ok [] ∧
    parse_team_match_index b 0 = .ok [] :=
  ⟨rfl, rfl, rfl, rfl, rfl⟩

/-- C2 counterexample: `parse_pair_index` (the north-south / east-west
pair indices of a pair-play section) has no null-pointer guard: at pointer
0 it dereferences offset 0. On a 1-byte buffer it fails with a bounds
error instead of yielding an empty value, and on a larger zero-filled
buffer it happily decodes a pair list from offset 0. -/
theorem c2_pair_index_dereferences_null :
    parse_pair_index oneZeroByteBuf 0 = .error .structError ∧
    parse_pair_index pairIndexAtZeroBuf 0 = .ok ⟨1, 0, []⟩ := by
  exact ⟨by rfl, by rfl⟩

/-- C3 (amended): the length-prefix validation exists for exactly two
record kinds.  (1) A section-details record whose declared length is not
802 makes the parse fail with the dedicated length error.  (2) A master
table whose first two bytes do not read 2578 fails with the
table-length error carrying the bad value.  (3) By contrast, the memo
structure reads its declared length but never checks it: the result of
`parse_memo_structure` is unchanged under arbitrary modification of the
length bytes at `loc` and `loc+1` (and of the memo id at `loc+2`,
`loc+3`) — only the buffer size and the bytes from `loc+4` on matter. -/
theorem c3_length_validation_amended (b b' c c' : Buf) (loc loc2 : Nat)
    (v : Int) (l1 : Nat) (s : State) :
    (loc ≠ 0 → decode_int16 b loc = .ok (v, l1) → v ≠ 802 →
        parse_section_details b loc = .error .sectionDetailsLength) ∧
    (hdrSizeOk b' → ¬ hdrLenOk b' →
        parse_master_table b' s = (s, .error (.tableLengthIncorrect (sgn16 (leU16 b' 0))))) ∧
    (loc2 ≠ 0 → c.size = c'.size → (∀ i, loc2 + 4 ≤ i → c.byte i = c'.byte i) →
        parse_memo_structure c loc2 = parse_memo_structure c' loc2) := by
  refine ⟨?_, ?_, ?_⟩
  · intro hne hdec hv
    simp [parse_section_details, hne, hdec, hv, Bind.bind, Except.bind,
      throw, throwThe, MonadExceptOf.throw, pure, Except.pure]
  · intro h1 h2
    unfold parse_master_table
    rw [hdr_spec_len b' h1 h2]
  · intro hne hsz hagree
    have h16 : leU16 c (loc2 + 4) = leU16 c' (loc2 + 4) := by
      unfold leU16
      rw [hagree (loc2 + 4) (by omega), hagree (loc2 + 4 + 1) (by omega)]
    rw [parse_memo_spec c loc2 hne, parse_memo_spec c' loc2 hne, hsz, h16]

set_option maxRecDepth 8192 in
/-- C3 witness: instantiating the amended theorem on a concrete section
whose declared length reads 12345 (not 802) yields the dedicated
length error, and on a concrete master table whose first two bytes are 0
yields the table-length error with value 0. -/
theorem c3_length_validation_amended_witness :
    parse_section_details memoBadLengthBuf 2 = .error .sectionDetailsLength ∧
    parse_master_table zeros2580 State.fresh =
      (State.fresh, .error (.tableLengthIncorrect (sgn16 (leU16 zeros2580 0)))) := by
  have h := c3_length_validation_amended memoBadLengthBuf zeros2580 oneZeroByteBuf
    oneZeroByteBuf 2 1 12345 4 State.fresh
  exact ⟨h.1 (by decide) (by rfl) (by decide), h.2.1 (by decide) (by decide)⟩

/-- C3 counterexample: a memo whose declared length field reads 12345 —
wildly wrong for a 10-byte buffer — still decodes successfully: the
self-declared byte length of the memo record is never validated. -/
theorem c3_memo_length_not_validated :
    decode_int16 memoBadLengthBuf 2 = .ok (12345, 4) ∧
    parse_memo_structure memoBadLengthBuf 2 = .ok [] := by
  exact ⟨by rfl, by rfl⟩

/-- C4 (amended): of the three "unsupported" layouts only two fail, and
neither failure is the explicit "not supported yet" error the spec
promises.  (1) The Howell path dies unconditionally with a NameError:
`HowellPair` is referenced without being imported, before any byte is
read.  (2) The team-play path (both the south-index and east-west
pointers zero) dies with an AttributeError: `parse_teams_index` does not
exist on the parser class.  Both are accidental Python errors, not a
dedicated unsupported-feature kind. -/
theorem c4_unsupported_paths_amended (b c : Buf) (loc loc2 l1 l2 l3 l4 l5 l6 : Nat)
    (sn ns w : Nat) :
    parse_howell_pairs b loc = .error (.nameError "HowellPair") ∧
    (loc2 ≠ 0 → decode_int16 c loc2 = .ok (802, l1) →
      decode_uint16 c l1 = .ok (sn, l2) →
      decode_pointer c l2 = .ok (ns, l3) →
      decode_pointer c l3 = .ok (0, l4) →
      decode_pointer c l4 = .ok (0, l5) →
      decode_pointer c l5 = .ok (w, l6) →
      parse_section_details c loc2 = .error (.attributeError "parse_teams_index")) := by
  refine ⟨rfl, ?_⟩
  intro hne hlen hsect hns hew hsi hw
  simp [parse_section_details, hne, hlen, hsect, hns, hew, hsi, hw,
    Bind.bind, Except.bind, throw, throwThe, MonadExceptOf.throw,
    pure, Except.pure]

set_option maxRecDepth 8192 in
/-- C4 witness: a concrete section record with declared length 802 and
all-zero pair/index pointers takes the team-play branch and fails with
the AttributeError (and the Howell conjunct holds on the same buffer). -/
theorem c4_unsupported_paths_amended_witness :
    parse_howell_pairs teamsSectionBuf 0 = .error (.nameError "HowellPair") ∧
    parse_section_details teamsSectionBuf 2 = .error (.attributeError "parse_teams_index") := by
  have h := c4_unsupported_paths_amended teamsSectionBuf teamsSectionBuf 0 2
    4 6 10 14 18 22 0 0 0
  exact ⟨h.1, h.2 (by decide) (by rfl) (by rfl) (by rfl) (by rfl) (by rfl) (by rfl)⟩

set_option maxRecDepth 100000 in
/-- C4 counterexample: the individual-play layout raises nothing at all —
a section whose south-index pointer is nonzero decodes successfully via
`parse_player_struct`, contradicting the claim that individual play
always raises a fatal unsupported-feature error. -/
theorem c4_individual_play_parses_ok :
    pIsOk (parse_section_details indivSectionBuf 2) = true := by rfl

/-- C5 (amended): when `decode_date` succeeds it uses exactly the bit
operations of the claim — year `(date >>> 9) + 1980`, month
`(date >>> 5) &&& 0xF`, day `date &&& 0x1F` on the high 16 bits and hour
`time >>> 11`, minute `(time >>> 5) &&& 0x3F`, second
`(time <<< 1) &&& 0x3F` on the low 16 bits, advancing the cursor by 4 —
but the all-zero word does NOT decode to 1980-01-01T00:00:00: month and
day come out 0 and Python's `datetime` constructor rejects month 0, so
the in-bounds zero word always raises the month ValueError. -/
theorem c5_date_decode_amended (b b' : Buf) (loc loc' : Nat)
    (d : DateTime) (l2 : Nat) :
    (decode_date b loc = .ok (d, l2) →
      l2 = loc + 4 ∧
      d.year = ((leU32 b loc >>> 16) >>> 9) + 1980 ∧
      d.month = ((leU32 b loc >>> 16) >>> 5) &&& 0x0F ∧
      d.day = (leU32 b loc >>> 16) &&& 0x1F ∧
      d.hour = (leU32 b loc &&& 0xFFFF) >>> 11 ∧
      d.minute = ((leU32 b loc &&& 0xFFFF) >>> 5) &&& 0x3F ∧
      d.second = ((leU32 b loc &&& 0xFFFF) <<< 1) &&& 0x3F) ∧
    (loc' + 4 ≤ b'.size → leU32 b' loc' = 0 →
      decode_date b' loc' = .error (.valueError "month must be in 1..12")) := by
  constructor
  · intro h
    by_cases hb : loc + 4 ≤ b.size
    · unfold decode_date at h
      rw [decode_uint32_ok b loc hb] at h
      simp only [Bind.bind, Except.bind, pure, Except.pure] at h
      split at h
      · exact Except.noConfusion h
      · rename_i v heq
        simp only [Except.ok.injEq, Prod.mk.injEq] at h
        obtain ⟨hd, hl⟩ := h
        subst hd; subst hl
        unfold mkDatetime at heq
        repeat' split at heq
        any_goals exact Except.noConfusion heq
        simp only [Except.ok.injEq] at heq
        subst heq
        exact ⟨rfl, rfl, rfl, rfl, rfl, rfl, rfl⟩
    · unfold decode_date decode_uint32 at h
      rw [if_neg hb] at h
      simp [Bind.bind, Except.bind] at h
  · intro hb h0
    unfold decode_date
    rw [decode_uint32_ok b' loc' hb, h0]
    rfl

/-- C5 witness: the amended theorem applied to a concrete nonzero word
(high half 0x0021, i.e. month 1, day 1, year offset 0) gives back the
claimed bit-operation values, and to a concrete in-bounds zero word gives
the month ValueError. -/
theorem c5_date_decode_amended_witness :
    DateTime.month ⟨1980, 1, 1, 0, 0, 0⟩ = ((leU32 dateGoodBuf 0 >>> 16) >>> 5) &&& 0x0F ∧
    decode_date dateZeroBuf 0 = .error (.valueError "month must be in 1..12") := by
  have h := c5_date_decode_amended dateGoodBuf dateZeroBuf 0 0 ⟨1980, 1, 1, 0, 0, 0⟩ 4
  exact ⟨(h.1 (by rfl)).2.2.1, h.2 (by decide) (by rfl)⟩

/-- C5 counterexample: the word 0x00000000, decoded in bounds, raises the
month ValueError instead of returning the 1980-01-01T00:00:00 timestamp
the spec promises. -/
theorem c5_zero_word_date_fails :
    decode_date dateZeroBuf 0 = .error (.valueError "month must be in 1..12") ∧
    mkDatetime 1980 1 1 0 0 0 = .ok ⟨1980, 1, 1, 0, 0, 0⟩ := by
  exact ⟨by rfl, by rfl⟩

/-- Closed form of `decode_real48` on an in-bounds 6-byte field. -/
theorem decode_real48_closed (b : Buf) (loc : Nat) (h : loc + 6 ≤ b.size) :
    decode_real48 b loc =
      if b.byte loc = 0 ∧
          fromBytesBE [b.byte (loc + 1) &&& 0x7F, b.byte (loc + 2),
            b.byte (loc + 3), b.byte (loc + 4), b.byte (loc + 5)] = 0 then
        .ok (0, loc + 6)
      else
        .ok (if (b.byte (loc + 1) &&& 0x80) >>> 7 = 1 then
            -(((fromBytesBE [b.byte (loc + 1) &&& 0x7F, b.byte (loc + 2),
                b.byte (loc + 3), b.byte (loc + 4), b.byte (loc + 5)] : ℚ) /
              (2 ^ 39 : ℚ)) * pow2Z ((b.byte loc : Int) - 129))
          else ((fromBytesBE [b.byte (loc + 1) &&& 0x7F, b.byte (loc + 2),
                b.byte (loc + 3), b.byte (loc + 4), b.byte (loc + 5)] : ℚ) /
              (2 ^ 39 : ℚ)) * pow2Z ((b.byte loc : Int) - 129), loc + 6) := by
  have key : pySlice b loc (loc + 6) = bytesAt b loc 6 := by
    unfold pySlice
    have hn : min (loc + 6) b.size - loc = 6 := by rw [Nat.min_eq_left h]; omega
    rw [hn]
  unfold decode_real48
  rw [key]
  rfl

/-- The real48 result value is never zero when the mantissa is nonzero,
whatever the sign bit and exponent. -/
theorem real48_result_ne_zero (m : Nat) (e : Int) (s : Nat) (hm : 0 < m) :
    (if s = 1 then -(((m : ℚ) / (2 ^ 39 : ℚ)) * pow2Z e)
     else ((m : ℚ) / (2 ^ 39 : ℚ)) * pow2Z e) ≠ 0 := by
  have hp : 0 < ((m : ℚ) / (2 ^ 39 : ℚ)) * pow2Z e := by
    apply mul_pos
    · apply div_pos
      · exact_mod_cast hm
      · positivity
    · unfold pow2Z
      split
      · positivity
      · positivity
  split
  · exact neg_ne_zero.mpr (ne_of_gt hp)
  · exact ne_of_gt hp

/-- C6 (amended): on an in-bounds 6-byte field, `decode_real48` returns
`mantissa/2^39 * 2^(exponent-129)` (negated when the top bit of byte 1 is
set) — but it returns 0.0 only when the exponent byte AND the 39-bit
mantissa are both zero.  A zero exponent with a nonzero mantissa yields a
nonzero (denormal-style) value, contradicting "0.0 whenever the exponent
byte is 0, regardless of the mantissa". -/
theorem c6_real48_amended (b b' : Buf) (loc loc' : Nat) :
    (loc + 6 ≤ b.size →
      decode_real48 b loc =
        if b.byte loc = 0 ∧
            fromBytesBE [b.byte (loc + 1) &&& 0x7F, b.byte (loc + 2),
              b.byte (loc + 3), b.byte (loc + 4), b.byte (loc + 5)] = 0 then
          .ok (0, loc + 6)
        else
          .ok (if (b.byte (loc + 1) &&& 0x80) >>> 7 = 1 then
              -(((fromBytesBE [b.byte (loc + 1) &&& 0x7F, b.byte (loc + 2),
                  b.byte (loc + 3), b.byte (loc + 4), b.byte (loc + 5)] : ℚ) /
                (2 ^ 39 : ℚ)) * pow2Z ((b.byte loc : Int) - 129))
            else ((fromBytesBE [b.byte (loc + 1) &&& 0x7F, b.byte (loc + 2),
                  b.byte (loc + 3), b.byte (loc + 4), b.byte (loc + 5)] : ℚ) /
                (2 ^ 39 : ℚ)) * pow2Z ((b.byte loc : Int) - 129), loc + 6)) ∧
    (loc' + 6 ≤ b'.size → b'.byte loc' = 0 →
      0 < fromBytesBE [b'.byte (loc' + 1) &&& 0x7F, b'.byte (loc' + 2),
            b'.byte (loc' + 3), b'.byte (loc' + 4), b'.byte (loc' + 5)] →
      ∃ q : ℚ, decode_real48 b' loc' = .ok (q, loc' + 6) ∧ q ≠ 0) := by
  constructor
  · intro h
    exact decode_real48_closed b loc h
  · intro h h0 hm
    rw [decode_real48_closed b' loc' h, h0]
    rw [if_neg (by simp [hm.ne'])]
    exact ⟨_, rfl, real48_result_ne_zero _ _ _ hm⟩

/-- C6 witness: the amended theorem applied to the all-zero 6-byte field
gives 0.0, and applied to the field with exponent 0 and mantissa 1 gives a
nonzero value. -/
theorem c6_real48_amended_witness :
    decode_real48 real48Zeros 0 = .ok (0, 6) ∧
    ∃ q : ℚ, decode_real48 real48ZeroExpBuf 0 = .ok (q, 6) ∧ q ≠ 0 := by
  have h := c6_real48_amended real48Zeros real48ZeroExpBuf 0 0
  constructor
  · rw [h.1 (by decide)]
    simp [real48Zeros, Buf.byte, fromBytesBE]
  · exact h.2 (by decide) (by decide) (by decide)

/-- C6 counterexample: exponent byte 0 with mantissa 1 does NOT decode to
0.0 — it decodes to the nonzero value 1/2^168. -/
theorem c6_zero_exponent_nonzero_mantissa :
    decode_real48 real48ZeroExpBuf 0 = .ok (1 / 2 ^ 168, 6) ∧
    ((1 : ℚ) / 2 ^ 168) ≠ 0 := by
  constructor
  · simp [decode_real48, pySlice, bytesAt, fromBytesBE, Buf.byte, real48ZeroExpBuf, pow2Z]
    norm_num
  · norm_num

/-- C7 (amended): every `struct.unpack_from` primitive does fail with the
bounds error when its fixed-width field would pass the end of the buffer,
and truncating the minimal valid master file by one byte makes the parse
fail outright — but `decode_real48` is the exception the claim misses: it
takes a Python slice, which clips silently, so with as few as two bytes
remaining it succeeds on a truncated mantissa instead of raising. -/
theorem c7_bounds_amended (b b' : Buf) (loc loc' m : Nat) :
    (b.size < loc + 1 →
      decode_uint8 b loc = .error .structError ∧
      decode_int8 b loc = .error .structError ∧
      decode_boolean b loc = .error .structError ∧
      decode_char b loc = .error .structError ∧
      decode_string b loc m = .error .structError) ∧
    (b.size < loc + 2 →
      decode_uint16 b loc = .error .structError ∧
      decode_int16 b loc = .error .structError) ∧
    (b.size < loc + 4 →
      decode_uint32 b loc = .error .structError ∧
      decode_pointer b loc = .error .structError ∧
      decode_date b loc = .error .structError) ∧
    (parse_master_table minimalTrunc State.fresh =
      (State.fresh, .error .fileTooSmall)) ∧
    (loc' + 2 ≤ b'.size → pIsOk (decode_real48 b' loc') = true) := by
  refine ⟨?_, ?_, ?_, by rfl, ?_⟩
  · intro h
    refine ⟨?_, ?_, ?_, ?_, ?_⟩ <;>
      first
        | (unfold decode_uint8; rw [if_neg (by omega)])
        | (unfold decode_int8; rw [if_neg (by omega)])
        | (unfold decode_boolean; rw [if_neg (by omega)])
        | (unfold decode_char; rw [if_neg (by omega)])
        | (unfold decode_string; rw [if_neg (by omega)])
  · intro h
    refine ⟨?_, ?_⟩ <;>
      first
        | (unfold decode_uint16; rw [if_neg (by omega)])
        | (unfold decode_int16; rw [if_neg (by omega)])
  · intro h
    refine ⟨?_, ?_, ?_⟩
    · unfold decode_uint32; rw [if_neg (by omega)]
    · unfold decode_pointer; rw [if_neg (by omega)]
    · unfold decode_date decode_uint32; rw [if_neg (by omega)]; rfl
  · intro h
    have hmin : loc' + 2 ≤ min (loc' + 6) b'.size := le_min (by omega) h
    obtain ⟨k, hk⟩ : ∃ k, min (loc' + 6) b'.size - loc' = k + 2 :=
      ⟨min (loc' + 6) b'.size - loc' - 2, by omega⟩
    unfold decode_real48 pySlice
    rw [hk]
    simp only [bytesAt]
    split <;> rfl

/-- C7 witness: the bounds conjuncts applied to the 1-byte buffer at
offset 1, and the slicing conjunct applied to a 2-byte buffer holding an
exponent and one mantissa byte: the real48 decode succeeds even though
four of its six bytes are missing. -/
theorem c7_bounds_amended_witness :
    decode_uint16 oneZeroByteBuf 1 = .error .structError ∧
    pIsOk (decode_real48 real48TruncBuf 0) = true := by
  have h := c7_bounds_amended oneZeroByteBuf real48TruncBuf 1 0 3
  exact ⟨(h.2.1 (by decide)).1, h.2.2.2.2 (by decide)⟩

/-- C7 counterexample: `decode_real48` on a 2-byte buffer does not raise a
bounds error: the slice `data[loc:loc+6]` silently clips, the one
remaining mantissa byte is treated as the whole big-endian mantissa, and
the decode returns the value 1/2^33 while advancing the cursor past the
end of the buffer. -/
theorem c7_real48_silent_truncation :
    real48TruncBuf.size = 2 ∧
    decode_real48 real48TruncBuf 0 = .ok (1 / 2 ^ 33, 6) := by
  refine ⟨rfl, ?_⟩
  simp [decode_real48, pySlice, bytesAt, fromBytesBE, Buf.byte, real48TruncBuf, pow2Z]
  norm_num [show (64 &&& 127 : Nat) = 64 from by decide]

/-- C8 (code bug): the claim matches the intent of the MasterTable class —
its constructor takes the score version, creation date, min-compatible
version, memo, note, bridgemate-import flag and global option bits — but
the constructor body never stores the last two: line 17 is a bare
annotation (`self.bridgemate_import: bridgemate`) and line 18 rebinds the
local (`global_options = global_options`), so on every successful parse
the produced MasterTable lacks the bridgemate-import and global-options
attributes (modelled as the fields being `none`), and reading them raises
AttributeError. -/
theorem c8_master_table_attrs_missing (b : Buf) (s : State) :
    ∀ s' l, parse_master_table b s = (s', .ok l) →
      ∃ mt : MasterTable, s'.header = some mt ∧
        mt.bridgemate_import = none ∧ mt.global_options = none := by
  intro s' l h
  exact (master_parse_ok_shape b s s' l h).2.2

set_option maxRecDepth 100000 in
/-- C8 witness: on the minimal valid master file the parse succeeds and
the stored MasterTable indeed has neither attribute set. -/
theorem c8_master_table_attrs_missing_witness :
    ∃ mt : MasterTable,
      ((parse_master_table minimalBuf State.fresh).1).header = some mt ∧
        mt.bridgemate_import = none ∧ mt.global_options = none :=
  c8_master_table_attrs_missing minimalBuf State.fresh
    (parse_master_table minimalBuf State.fresh).1 2580 (by rfl)

/-- C9 (amended): `parse_master_table` is not idempotent on the parser
state: the `__init__`-created `events` and `sections` lists are never
cleared, and every successful invocation APPENDS 50 event entries and 100
section summaries to whatever the state already holds, so a second
invocation on the same parser leaves the accumulated sequences strictly
longer than (not equal to) their value after the first. -/
theorem c9_reparse_amended (b : Buf) (s : State) :
    ∀ s' l, parse_master_table b s = (s', .ok l) →
      s'.events.length = s.events.length + 50 ∧
      s'.sections.length = s.sections.length + 100 := by
  intro s' l h
  exact ⟨(master_parse_ok_shape b s s' l h).1,
    (master_parse_ok_shape b s s' l h).2.1⟩

set_option maxRecDepth 100000 in
/-- C9 witness: on the minimal valid master file, a successful parse from
the fresh state yields exactly 50 accumulated events and 100 sections. -/
theorem c9_reparse_amended_witness :
    ((parse_master_table minimalBuf State.fresh).1).events.length = 0 + 50 ∧
    ((parse_master_table minimalBuf State.fresh).1).sections.length = 0 + 100 :=
  c9_reparse_amended minimalBuf State.fresh
    (parse_master_table minimalBuf State.fresh).1 2580 (by rfl)

set_option maxRecDepth 100000 in
/-- C9 counterexample: running `parse_master_table` a second time on the
state left by the first run doubles the accumulated events (50 to 100)
and sections (100 to 200), so the accumulated sequences are not
structurally equal to their value after the first invocation. -/
theorem c9_second_parse_doubles_state :
    ((parse_master_table minimalBuf State.fresh).1).events.length = 50 ∧
    ((parse_master_table minimalBuf
        (parse_master_table minimalBuf State.fresh).1).1).events.length = 100 ∧
    ((parse_master_table minimalBuf State.fresh).1).sections.length = 100 ∧
    ((parse_master_table minimalBuf
        (parse_master_table minimalBuf State.fresh).1).1).sections.length = 200 := by
  refine ⟨by rfl, by rfl, by rfl, by rfl⟩

/-- C10 (confirmed): `parse_memo_structure` and `parse_note_structure`
call the per-line string decode without its offset argument
(`self.decode_string(63)`), which in Python is a TypeError on the first
loop iteration.  Hence a memo or note decodes successfully only when its
pointer is 0 or its declared line count is 0 (and then the line list is
empty), and any nonzero pointer to an in-bounds record with a positive
line count makes the decode fail. -/
theorem c10_memo_note_line_decode_fails (b b' : Buf) (loc loc' : Nat)
    (r r' : List Nat) :
    (parse_memo_structure b loc = .ok r →
      r = [] ∧ (loc = 0 ∨ leU16 b (loc + 4) = 0)) ∧
    (loc ≠ 0 → loc + 6 ≤ b.size → 0 < leU16 b (loc + 4) →
      parse_memo_structure b loc = .error .typeError) ∧
    (parse_note_structure b' loc' = .ok r' →
      r' = [] ∧ (loc' = 0 ∨ leU16 b' (loc' + 4) = 0)) ∧
    (loc' ≠ 0 → loc' + 6 ≤ b'.size → 0 < leU16 b' (loc' + 4) →
      parse_note_structure b' loc' = .error .typeError) := by
  refine ⟨?_, ?_, ?_, ?_⟩
  · intro h
    by_cases hne : loc = 0
    · subst hne
      have h0 : parse_memo_structure b 0 = .ok [] := rfl
      rw [h0] at h
      simp only [Except.ok.injEq] at h
      exact ⟨h.symm, Or.inl rfl⟩
    · rw [parse_memo_spec b loc hne] at h
      repeat' split at h
      any_goals exact Except.noConfusion h
      simp only [Except.ok.injEq] at h
      refine ⟨h.symm, Or.inr ?_⟩
      omega
  · intro hne hb hlc
    rw [parse_memo_spec b loc hne]
    rw [if_pos (by omega), if_pos (by omega), if_pos hb, if_pos hlc]
  · intro h
    by_cases hne : loc' = 0
    · subst hne
      have h0 : parse_note_structure b' 0 = .ok [] := rfl
      rw [h0] at h
      simp only [Except.ok.injEq] at h
      exact ⟨h.symm, Or.inl rfl⟩
    · rw [parse_note_spec b' loc' hne] at h
      repeat' split at h
      any_goals exact Except.noConfusion h
      simp only [Except.ok.injEq] at h
      refine ⟨h.symm, Or.inr ?_⟩
      omega
  · intro hne hb hlc
    rw [parse_note_spec b' loc' hne]
    rw [if_pos (by omega), if_pos (by omega), if_pos hb, if_pos hlc]

/-- C10 witness: a concrete 10-byte buffer whose record declares one line
makes both the memo and the note decode fail with the TypeError. -/
theorem c10_memo_note_line_decode_fails_witness :
    parse_memo_structure memoOneLineBuf 2 = .error .typeError ∧
    parse_note_structure memoOneLineBuf 2 = .error .typeError := by
  have h := c10_memo_note_line_decode_fails memoOneLineBuf memoOneLineBuf 2 2 [] []
  exact ⟨h.2.1 (by decide) (by decide) (by decide),
    h.2.2.2 (by decide) (by decide) (by decide)⟩
